import Mathlib

/-!
# Rainbow LED driver: shallow embedding of `rainbow_led.c`

The C translation unit keeps one global record `_data` (stored state, registered
callback, event-group handle) and talks to three collaborators: the LED driver
(`app_led_*`), the button driver (`app_button_init`) and the FreeRTOS event group that
serves as the power gate.  The embedding passes the global record and the collaborator
state explicitly (`World`) and returns the collaborator calls made by an operation as a
list of `Effect`s, in program order.  Logging calls (`ESP_LOGx`) have no effect on the
modelled state and are left out.  The driver and its animation task together form a
machine (`Machine`) whose atomic steps are the public call, the two button gestures and a
pass of the task; statements about every reachable state are about its runs.  A task
suspended in `xEventGroupWaitBits` is woken the FreeRTOS way: the `xEventGroupSetBits`
that satisfies its wait hands it the bits and applies its clear-on-exit at once
(`gate_handover`), and the task, once it runs, goes on from the return of the wait with
those bits without looking at the group or at the stored power again.

Machine integers are natural numbers or integers; conversions that can lose bits in C
(`uint8_t change = state->change`, the `int` to `uint8_t` stores of the long press, the
`+=` on the hue field) carry an explicit `%`.
-/

namespace RainbowLed

/-! ## Types of `rainbow_led.h` -/

/-- ESP-IDF error code (`esp_err_t` is a C `int`). -/
abbrev esp_err_t := Int

/-- ESP-IDF `ESP_OK`. -/
def ESP_OK : esp_err_t := 0

/-- ESP-IDF `ESP_ERR_NO_MEM`. -/
def ESP_ERR_NO_MEM : esp_err_t := 0x101

/-- ESP-IDF `ESP_ERR_INVALID_ARG`. -/
def ESP_ERR_INVALID_ARG : esp_err_t := 0x102

/-- Change flag `RAINBOW_LED_STATE_CHANGE_POWER = (1 << 0)`. -/
def RAINBOW_LED_STATE_CHANGE_POWER : Nat := 1 <<< 0

/-- Change flag `RAINBOW_LED_STATE_CHANGE_SPEED = (1 << 1)`. -/
def RAINBOW_LED_STATE_CHANGE_SPEED : Nat := 1 <<< 1

/-- Change flag `RAINBOW_LED_STATE_CHANGE_BRIGHTNESS = (1 << 2)`. -/
def RAINBOW_LED_STATE_CHANGE_BRIGHTNESS : Nat := 1 <<< 2

/-- Change flag `RAINBOW_LED_STATE_CHANGE_ALL`, the union of the three flags. -/
def RAINBOW_LED_STATE_CHANGE_ALL : Nat :=
  RAINBOW_LED_STATE_CHANGE_POWER ||| RAINBOW_LED_STATE_CHANGE_SPEED |||
    RAINBOW_LED_STATE_CHANGE_BRIGHTNESS

/-- The record `rainbow_led_state_t`: `bool power`, `uint8_t speed`, `uint8_t brightness`
and the change flags (an enum, so of `int` width). -/
structure rainbow_led_state_t where
  power : Bool
  speed : Nat
  brightness : Nat
  change : Nat
  deriving DecidableEq, Repr

/-- Function pointer `rainbow_led_callback_t`, as its address; `0` is `NULL`. -/
abbrev rainbow_led_callback_t := Nat

/-- Handle `EventGroupHandle_t`, as its address; `0` is `NULL`. -/
abbrev EventGroupHandle_t := Nat

/-! ## Types and constants of `rainbow_led.c` -/

/-- The record `rainbow_led_priv_data_t`. -/
structure rainbow_led_priv_data_t where
  state : rainbow_led_state_t
  callback : rainbow_led_callback_t
  event_group : EventGroupHandle_t
  deriving DecidableEq, Repr

/-- The record `rainbow_led_range_t`. -/
structure rainbow_led_range_t where
  max : Nat
  min : Nat
  deriving DecidableEq, Repr

/-- Type of the anonymous struct behind `_ranges`. -/
structure rainbow_led_ranges_t where
  speed : rainbow_led_range_t
  brightness : rainbow_led_range_t
  deriving DecidableEq, Repr

/-- The constant table `_ranges`. -/
def _ranges : rainbow_led_ranges_t :=
  { speed := { max := 10, min := 1 }
    brightness := { max := 100, min := 0 } }

/-- Event bit `RAINBOW_LED_EVENT_GROUP_BIT_POWER = (1 << 0)`. -/
def RAINBOW_LED_EVENT_GROUP_BIT_POWER : Nat := 1 <<< 0

/-- Initial value of the global `_data`. -/
def _data : rainbow_led_priv_data_t :=
  { event_group := 0
    state :=
      { power := false
        speed := _ranges.speed.min
        brightness := _ranges.brightness.min
        change := 0 }
    callback := 0 }

/-- Modelled from the spec: the colour record `app_led_color_hsv_t` of `app_led.h`, which
is not part of the sources; the spec gives the driver's `set_color(hue: 0..360,
saturation: 0..100, brightness: 0..100)`. -/
structure app_led_color_hsv_t where
  hue : Nat
  saturation : Nat
  brightness : Nat
  deriving DecidableEq, Repr

/-! ## Collaborators -/

/-- Calls into the collaborators, in the order the program makes them. -/
inductive Effect where
  /-- Call `srand(seed)`. -/
  | srand (seed : Nat)
  /-- Call `xEventGroupCreate()`. -/
  | eventGroupCreate
  /-- Call `app_led_init()`. -/
  | ledInit
  /-- Call `app_button_init(&button_config)` registering the two press handlers. -/
  | buttonInit
  /-- Call `app_led_set_power(power)`. -/
  | ledSetPower (power : Bool)
  /-- Call `app_led_set_color_hsv(color)`. -/
  | ledSetColor (color : app_led_color_hsv_t)
  /-- Call `xEventGroupSetBits(_data.event_group, bits)`. -/
  | setBits (bits : Nat)
  /-- Call `xEventGroupClearBits(_data.event_group, bits)`. -/
  | clearBits (bits : Nat)
  /-- Call `xTaskCreate(_task_function, ...)`. -/
  | taskCreate
  /-- Call `vTaskDelay(ms / portTICK_PERIOD_MS)`. -/
  | taskDelay (ms : Nat)
  /-- Call through the function pointer `fn` with the snapshot `snapshot`. -/
  | callback (fn : rainbow_led_callback_t) (snapshot : rainbow_led_state_t)
  deriving DecidableEq, Repr

/-- The program's global record together with the bits of its event group. -/
structure World where
  data : rainbow_led_priv_data_t
  event_bits : Nat
  deriving DecidableEq, Repr

/-- FreeRTOS `xEventGroupSetBits` on the bits of the group. -/
def xEventGroupSetBits (event_bits bitsToSet : Nat) : Nat :=
  event_bits ||| bitsToSet

/-- FreeRTOS `xEventGroupClearBits` on the bits of the group (`bits &= ~bitsToClear` on a
32-bit `EventBits_t`). -/
def xEventGroupClearBits (event_bits bitsToClear : Nat) : Nat :=
  event_bits &&& (0xFFFFFFFF ^^^ bitsToClear)

/-- FreeRTOS `xEventGroupWaitBits` with an unbounded timeout, at the moment of the call:
`none` when the awaited bits are not there (the caller is suspended, and stays so until an
`xEventGroupSetBits` hands the bits over to it, see `gate_handover`), otherwise the
returned bits (their value before clearing) and the bits left in the group. -/
def xEventGroupWaitBits (event_bits bitsToWaitFor : Nat) (clearOnExit waitForAll : Bool) :
    Option (Nat × Nat) :=
  let ready :=
    if waitForAll then event_bits &&& bitsToWaitFor = bitsToWaitFor
    else event_bits &&& bitsToWaitFor ≠ 0
  if ready then
    some (event_bits, if clearOnExit then xEventGroupClearBits event_bits bitsToWaitFor
                      else event_bits)
  else none

/-- Conversion of a C `int` to `uint8_t`. -/
def uint8_of_int (x : Int) : Nat := (x % 256).toNat

/-! ## Private functions -/

/-- The function `_on_power_toggle`. -/
def _on_power_toggle (w : World) (new_power : Bool) : World × List Effect :=
  let w1 : World := { w with data := { w.data with state := { w.data.state with power := new_power } } }
  if new_power then
    ({ w1 with event_bits := xEventGroupSetBits w1.event_bits RAINBOW_LED_EVENT_GROUP_BIT_POWER },
      [Effect.ledSetPower new_power, Effect.setBits RAINBOW_LED_EVENT_GROUP_BIT_POWER])
  else
    ({ w1 with event_bits := xEventGroupClearBits w1.event_bits RAINBOW_LED_EVENT_GROUP_BIT_POWER },
      [Effect.ledSetPower new_power, Effect.clearBits RAINBOW_LED_EVENT_GROUP_BIT_POWER])

/-- The button handler `_on_short_press`. -/
def _on_short_press (w : World) : World × List Effect :=
  let r := _on_power_toggle w (!w.data.state.power)
  let new_state : rainbow_led_state_t :=
    { r.1.data.state with change := RAINBOW_LED_STATE_CHANGE_POWER }
  (r.1, r.2 ++ [Effect.callback r.1.data.callback new_state])

/-- The button handler `_on_long_press`; `r1` and `r2` are the values returned by its two
calls of `rand()`, in order. -/
def _on_long_press (w : World) (r1 r2 : Int) : World × List Effect :=
  let new_state : rainbow_led_state_t := w.data.state
  let new_state : rainbow_led_state_t :=
    { new_state with
      speed := uint8_of_int
        (Int.tmod r1 ((_ranges.speed.max : Int) - _ranges.speed.min + 1) + _ranges.speed.min) }
  let new_state : rainbow_led_state_t :=
    { new_state with
      brightness := uint8_of_int
        (Int.tmod r2 ((_ranges.brightness.max : Int) - _ranges.brightness.min + 1)
          + _ranges.brightness.min) }
  let new_state : rainbow_led_state_t :=
    { new_state with
      change := RAINBOW_LED_STATE_CHANGE_SPEED ||| RAINBOW_LED_STATE_CHANGE_BRIGHTNESS }
  (w, [Effect.callback w.data.callback new_state])

/-! ## Public functions -/

/-- Result of a public operation: the returned code, the world it leaves and the
collaborator calls it made. -/
structure Outcome where
  ret : esp_err_t
  world : World
  effects : List Effect
  deriving DecidableEq, Repr

/-- What `rainbow_led_init` gets back from its environment: the clock, the handle from
`xEventGroupCreate` (`0` when allocation fails), the codes of the two driver initialisers
and whether `xTaskCreate` answered `pdPASS`. -/
structure InitEnv where
  time : Nat
  event_group : EventGroupHandle_t
  led_init : esp_err_t
  button_init : esp_err_t
  task_create : Bool
  deriving DecidableEq, Repr

/-- The function `rainbow_led_init`; a `NULL` `initial_state` is `none`, a `NULL`
`callback` is `0`.  The value returned by `xTaskCreate` (`env.task_create`) is not looked
at by the source. -/
def rainbow_led_init (env : InitEnv) (w : World) (initial_state : Option rainbow_led_state_t)
    (callback : rainbow_led_callback_t) : Outcome :=
  match initial_state with
  | none => { ret := ESP_ERR_INVALID_ARG, world := w, effects := [] }
  | some init =>
    if callback = 0 then { ret := ESP_ERR_INVALID_ARG, world := w, effects := [] }
    else
      let w1 : World :=
        { data := { w.data with event_group := env.event_group }
          event_bits := if env.event_group = 0 then w.event_bits else 0 }
      if w1.data.event_group = 0 then
        { ret := ESP_ERR_NO_MEM, world := w1,
          effects := [Effect.srand env.time, Effect.eventGroupCreate] }
      else if env.led_init ≠ ESP_OK then
        { ret := env.led_init, world := w1,
          effects := [Effect.srand env.time, Effect.eventGroupCreate, Effect.ledInit] }
      else if env.button_init ≠ ESP_OK then
        { ret := env.button_init, world := w1,
          effects := [Effect.srand env.time, Effect.eventGroupCreate, Effect.ledInit,
            Effect.buttonInit] }
      else
        let w2 : World := { w1 with data := { w1.data with state := init, callback := callback } }
        { ret := ESP_OK, world := w2,
          effects := [Effect.srand env.time, Effect.eventGroupCreate, Effect.ledInit,
            Effect.buttonInit, Effect.ledSetPower w2.data.state.power, Effect.taskCreate] }

/-- The function `rainbow_led_set_state`; a `NULL` argument is `none`. -/
def rainbow_led_set_state (w : World) (state : Option rainbow_led_state_t) : Outcome :=
  match state with
  | none => { ret := ESP_ERR_INVALID_ARG, world := w, effects := [] }
  | some s =>
    let change := s.change % 256
    if change &&& RAINBOW_LED_STATE_CHANGE_SPEED ≠ 0 ∧
        (s.speed < _ranges.speed.min ∨ s.speed > _ranges.speed.max) then
      { ret := ESP_ERR_INVALID_ARG, world := w, effects := [] }
    else if change &&& RAINBOW_LED_STATE_CHANGE_BRIGHTNESS ≠ 0 ∧
        (s.brightness < _ranges.brightness.min ∨ s.brightness > _ranges.brightness.max) then
      { ret := ESP_ERR_INVALID_ARG, world := w, effects := [] }
    else
      let w1 : World :=
        if change &&& RAINBOW_LED_STATE_CHANGE_SPEED ≠ 0 then
          { w with data := { w.data with state := { w.data.state with speed := s.speed } } }
        else w
      let w2 : World :=
        if change &&& RAINBOW_LED_STATE_CHANGE_BRIGHTNESS ≠ 0 then
          { w1 with data :=
              { w1.data with state := { w1.data.state with brightness := s.brightness } } }
        else w1
      if change &&& RAINBOW_LED_STATE_CHANGE_POWER ≠ 0 then
        let r := _on_power_toggle w2 s.power
        { ret := ESP_OK, world := r.1, effects := r.2 }
      else
        { ret := ESP_OK, world := w2, effects := [] }

/-! ## The animation task -/

/-- Initial value of the task-local variable `color` of `_task_function`. -/
def _task_function_color (w : World) : app_led_color_hsv_t :=
  { hue := 0, saturation := 100, brightness := w.data.state.brightness }

/-- One pass through the body of the `while (1)` of `_task_function`. -/
structure TaskStep where
  world : World
  color : app_led_color_hsv_t
  effects : List Effect
  /-- The pass ended suspended inside `xEventGroupWaitBits`. -/
  blocked : Bool
  deriving DecidableEq, Repr

/-- Lines 122 to 133 of `_task_function`: advance the hue, sample the brightness, render,
delay.  The width in bits of the unsigned hue field, declared in `app_led.h`, is the
parameter `hueBits`. -/
def _task_function_render (hueBits : Nat) (w : World) (color : app_led_color_hsv_t) :
    TaskStep :=
  let color : app_led_color_hsv_t :=
    { color with hue := (color.hue + w.data.state.speed) % 2 ^ hueBits }
  let color : app_led_color_hsv_t :=
    if color.hue ≥ 360 then { color with hue := color.hue - 360 } else color
  let color : app_led_color_hsv_t := { color with brightness := w.data.state.brightness }
  { world := w, color := color,
    effects := [Effect.ledSetColor color, Effect.taskDelay 50], blocked := false }

/-- Lines 117 to 133 of `_task_function`: the pass from the return of
`xEventGroupWaitBits` with the value `bits` on.  The stored power is not read again. -/
def _task_function_woken (hueBits : Nat) (w : World) (color : app_led_color_hsv_t)
    (bits : Nat) : TaskStep :=
  if bits &&& RAINBOW_LED_EVENT_GROUP_BIT_POWER = 0 then
    { world := w, color := color, effects := [], blocked := false }
  else _task_function_render hueBits w color

/-- Lines 116 to 133 of `_task_function`: the branch taken at the top of the loop when the
power is off.  The call of `xEventGroupWaitBits` returns at once when the power bit is
there; otherwise the task is suspended in it and the pass ends there. -/
def _task_function_wait (hueBits : Nat) (w : World) (color : app_led_color_hsv_t) :
    TaskStep :=
  match xEventGroupWaitBits w.event_bits RAINBOW_LED_EVENT_GROUP_BIT_POWER true true with
  | none => { world := w, color := color, effects := [], blocked := true }
  | some (bits, left) => _task_function_woken hueBits { w with event_bits := left } color bits

/-- The body of the `while (1)` of `_task_function`, run once from the top of the loop in
the world `w` with the task-local `color`. -/
def _task_function_iteration (hueBits : Nat) (w : World) (color : app_led_color_hsv_t) :
    TaskStep :=
  if !w.data.state.power then _task_function_wait hueBits w color
  else _task_function_render hueBits w color

/-! ## Conditions and sample inputs used in the statements -/

/-- The request fails validation, in the words of the contract: `SPEED` is flagged and the
speed is outside `[1,10]`, or `BRIGHTNESS` is flagged and the brightness is outside
`[0,100]`. -/
def rejected (s : rainbow_led_state_t) : Prop :=
  (s.change &&& RAINBOW_LED_STATE_CHANGE_SPEED ≠ 0 ∧ ¬ (1 ≤ s.speed ∧ s.speed ≤ 10)) ∨
  (s.change &&& RAINBOW_LED_STATE_CHANGE_BRIGHTNESS ≠ 0 ∧
    ¬ (0 ≤ s.brightness ∧ s.brightness ≤ 100))

instance (s : rainbow_led_state_t) : Decidable (rejected s) := by
  unfold rejected; infer_instance

/-- A world as `rainbow_led_init` leaves it for the example application: power on,
speed 5, brightness 20, a callback and an event group in place, no event bit set. -/
def world_on : World :=
  { data :=
      { state := { power := true, speed := 5, brightness := 20, change := 0 }
        callback := 0x400d1234
        event_group := 0x3ffb2000 }
    event_bits := 0 }

/-- The world `world_on` with the power off. -/
def world_off : World :=
  { world_on with
    data := { world_on.data with state := { world_on.data.state with power := false } } }

/-! ## The driver and its task as one machine -/

/-- What can happen next: a call of `rainbow_led_set_state`, one of the two button
gestures (the long press with its two `rand()` values), or the animation task getting to
run. -/
inductive Event where
  | set_state (state : Option rainbow_led_state_t)
  | short_press
  | long_press (r1 r2 : Int)
  | loop
  deriving DecidableEq, Repr

/-- The world, the task-local `color` of `_task_function`, whether the task is suspended
inside `xEventGroupWaitBits`, every collaborator call made so far, and the bits that an
`xEventGroupSetBits` has handed to the task it made ready, until that task runs and its
`xEventGroupWaitBits` returns them. -/
structure Machine where
  world : World
  color : app_led_color_hsv_t
  waiting : Bool
  trace : List Effect
  latched : Option Nat := none
  deriving DecidableEq, Repr

/-- The machine right after `rainbow_led_init` returned the outcome `o`: the task is at
the top of its loop with its `color` freshly initialised. -/
def machine_start (o : Outcome) : Machine :=
  { world := o.world, color := _task_function_color o.world, waiting := false,
    trace := o.effects, latched := none }

/-- The call is an `xEventGroupSetBits`. -/
def Effect.isSetBits : Effect → Bool
  | Effect.setBits _ => true
  | _ => false

/-- What FreeRTOS `xEventGroupSetBits` does for a task suspended in the
`xEventGroupWaitBits` of `_task_function`, inside the call itself: when the bits now in
the group meet the condition waited for, the task is made ready, the bits it will get as
return value are latched for it, and its clear-on-exit is applied to the group.  `w` is
the world an operation left and `effects` are its calls; the result is the world after the
handover and the latched bits, `none` when nothing was handed over. -/
def gate_handover (waiting : Bool) (effects : List Effect) (w : World) :
    World × Option Nat :=
  if waiting && effects.any Effect.isSetBits then
    match xEventGroupWaitBits w.event_bits RAINBOW_LED_EVENT_GROUP_BIT_POWER true true with
    | some (bits, left) => ({ w with event_bits := left }, some bits)
    | none => (w, none)
  else (w, none)

/-- A control-path operation as a step of the machine: `w` and `effects` are the world it
left and its calls; a suspended task it signalled is made ready with its bits latched. -/
def control_step (m : Machine) (w : World) (effects : List Effect) : Machine :=
  match gate_handover m.waiting effects w with
  | (w1, some bits) =>
    { world := w1, color := m.color, waiting := false, trace := m.trace ++ effects,
      latched := some bits }
  | (w1, none) =>
    { world := w1, color := m.color, waiting := m.waiting, trace := m.trace ++ effects,
      latched := m.latched }

/-- What the animation task does when it gets to run: a task made ready by a handover
returns from its wait with the latched bits, whatever the group and the stored power are
by then; a task still suspended does nothing; otherwise a pass starts at the top of the
loop. -/
def loop_pass (hueBits : Nat) (m : Machine) : TaskStep :=
  match m.latched with
  | some bits => _task_function_woken hueBits m.world m.color bits
  | none =>
    if m.waiting then { world := m.world, color := m.color, effects := [], blocked := true }
    else _task_function_iteration hueBits m.world m.color

/-- One atomic step of the machine. -/
def machine_step (hueBits : Nat) (m : Machine) : Event → Machine
  | Event.set_state state =>
    let o := rainbow_led_set_state m.world state
    control_step m o.world o.effects
  | Event.short_press =>
    let r := _on_short_press m.world
    control_step m r.1 r.2
  | Event.long_press r1 r2 =>
    let r := _on_long_press m.world r1 r2
    control_step m r.1 r.2
  | Event.loop =>
    let t := loop_pass hueBits m
    { world := t.world, color := t.color, waiting := t.blocked,
      trace := m.trace ++ t.effects, latched := none }

/-- The machine after a sequence of atomic steps. -/
def machine_run (hueBits : Nat) (m : Machine) (events : List Event) : Machine :=
  events.foldl (machine_step hueBits) m

/-- The power output of the LED driver after the calls `trace`: the argument of the last
`app_led_set_power`, `none` when there was none. -/
def app_led_power (trace : List Effect) : Option Bool :=
  trace.foldl
    (fun acc e =>
      match e with
      | Effect.ledSetPower power => some power
      | _ => acc)
    none

/-- The environment in which every step of `rainbow_led_init` succeeds. -/
def env_ok : InitEnv :=
  { time := 1700000000, event_group := 0x3ffb2000, led_init := ESP_OK,
    button_init := ESP_OK, task_create := true }

/-! ## Auxiliary facts on masks and event bits -/

/-- Narrowing a mask to `uint8_t` keeps every flag below `256`. -/
theorem land_mod_256 (c b : Nat) (hb : b < 256) : (c % 256) &&& b = c &&& b := by
  apply Nat.eq_of_testBit_eq
  intro i
  rw [Nat.testBit_and, Nat.testBit_and, show (256 : Nat) = 2 ^ 8 from rfl,
    Nat.testBit_mod_two_pow]
  by_cases hi : i < 8
  · simp [hi]
  · have hbi : b.testBit i = false := by
      apply Nat.testBit_lt_two_pow
      calc b < 2 ^ 8 := hb
        _ ≤ 2 ^ i := Nat.pow_le_pow_right (by decide) (by omega)
    simp [hbi]

theorem change_power_mod (c : Nat) :
    (c % 256) &&& RAINBOW_LED_STATE_CHANGE_POWER = c &&& RAINBOW_LED_STATE_CHANGE_POWER :=
  land_mod_256 c _ (by decide)

theorem change_speed_mod (c : Nat) :
    (c % 256) &&& RAINBOW_LED_STATE_CHANGE_SPEED = c &&& RAINBOW_LED_STATE_CHANGE_SPEED :=
  land_mod_256 c _ (by decide)

theorem change_brightness_mod (c : Nat) :
    (c % 256) &&& RAINBOW_LED_STATE_CHANGE_BRIGHTNESS =
      c &&& RAINBOW_LED_STATE_CHANGE_BRIGHTNESS :=
  land_mod_256 c _ (by decide)

/-- After `xEventGroupSetBits` with the power bit, the power bit is there. -/
theorem setBits_power_bit (b : Nat) :
    xEventGroupSetBits b RAINBOW_LED_EVENT_GROUP_BIT_POWER &&&
      RAINBOW_LED_EVENT_GROUP_BIT_POWER = RAINBOW_LED_EVENT_GROUP_BIT_POWER := by
  show (b ||| 1) &&& 1 = 1
  rw [Nat.and_one_is_mod, Nat.or_mod_two_eq_one]
  right; rfl

/-- After `xEventGroupClearBits` with the power bit, the power bit is gone. -/
theorem clearBits_power_bit (b : Nat) :
    xEventGroupClearBits b RAINBOW_LED_EVENT_GROUP_BIT_POWER &&&
      RAINBOW_LED_EVENT_GROUP_BIT_POWER = 0 := by
  show (b &&& (0xFFFFFFFF ^^^ 1)) &&& 1 = 0
  rw [Nat.and_assoc]; simp

/-! ## `rainbow_led_set_state`: the two outcomes -/

/-- A request that fails validation is answered `ESP_ERR_INVALID_ARG` and nothing else
happens. -/
theorem set_state_of_rejected (w : World) (s : rainbow_led_state_t) (h : rejected s) :
    rainbow_led_set_state w (some s) =
      { ret := ESP_ERR_INVALID_ARG, world := w, effects := [] } := by
  unfold rejected at h
  unfold rainbow_led_set_state
  simp only [change_speed_mod, change_brightness_mod, change_power_mod, _ranges]
  split_ifs <;> first | rfl | (exfalso; omega)

/-- A request that passes validation is answered `ESP_OK`; each flagged field is copied,
and the collaborator calls are those of `_on_power_toggle` when `POWER` is flagged. -/
theorem set_state_of_not_rejected (w : World) (s : rainbow_led_state_t) (h : ¬ rejected s) :
    rainbow_led_set_state w (some s) =
      { ret := ESP_OK
        world :=
          { data :=
              { w.data with
                state :=
                  { power :=
                      if s.change &&& RAINBOW_LED_STATE_CHANGE_POWER ≠ 0 then s.power
                      else w.data.state.power
                    speed :=
                      if s.change &&& RAINBOW_LED_STATE_CHANGE_SPEED ≠ 0 then s.speed
                      else w.data.state.speed
                    brightness :=
                      if s.change &&& RAINBOW_LED_STATE_CHANGE_BRIGHTNESS ≠ 0 then
                        s.brightness
                      else w.data.state.brightness
                    change := w.data.state.change } }
            event_bits :=
              if s.change &&& RAINBOW_LED_STATE_CHANGE_POWER ≠ 0 then
                if s.power then
                  xEventGroupSetBits w.event_bits RAINBOW_LED_EVENT_GROUP_BIT_POWER
                else xEventGroupClearBits w.event_bits RAINBOW_LED_EVENT_GROUP_BIT_POWER
              else w.event_bits }
        effects :=
          if s.change &&& RAINBOW_LED_STATE_CHANGE_POWER ≠ 0 then
            [Effect.ledSetPower s.power,
              if s.power then Effect.setBits RAINBOW_LED_EVENT_GROUP_BIT_POWER
              else Effect.clearBits RAINBOW_LED_EVENT_GROUP_BIT_POWER]
          else [] } := by
  unfold rejected at h
  unfold rainbow_led_set_state _on_power_toggle
  simp only [change_speed_mod, change_brightness_mod, change_power_mod, _ranges]
  split_ifs <;> first | rfl | (exfalso; omega)

/-- The code of a non-null request: `ESP_ERR_INVALID_ARG` when rejected, else `ESP_OK`. -/
theorem set_state_ret (w : World) (s : rainbow_led_state_t) :
    (rainbow_led_set_state w (some s)).ret =
      if rejected s then ESP_ERR_INVALID_ARG else ESP_OK := by
  by_cases h : rejected s
  · rw [set_state_of_rejected w s h, if_pos h]
  · rw [set_state_of_not_rejected w s h, if_neg h]

/-! ## Validation of `rainbow_led_set_state` -/

/-- C1: for every world and every non-null request that flags `SPEED` with a speed outside
`[1,10]` or flags `BRIGHTNESS` with a brightness outside `[0,100]`, whatever its other
flags and fields, `rainbow_led_set_state` returns `ESP_ERR_INVALID_ARG`, leaves the whole
world (stored power, speed and brightness, event bits) as it was and calls no
collaborator. -/
theorem set_state_invalid_all_or_nothing (w : World) (s : rainbow_led_state_t)
    (h : (s.change &&& RAINBOW_LED_STATE_CHANGE_SPEED ≠ 0 ∧ ¬ (1 ≤ s.speed ∧ s.speed ≤ 10)) ∨
      (s.change &&& RAINBOW_LED_STATE_CHANGE_BRIGHTNESS ≠ 0 ∧
        ¬ (0 ≤ s.brightness ∧ s.brightness ≤ 100))) :
    (rainbow_led_set_state w (some s)).ret = ESP_ERR_INVALID_ARG ∧
      (rainbow_led_set_state w (some s)).world = w ∧
      (rainbow_led_set_state w (some s)).effects = [] := by
  rw [set_state_of_rejected w s h]
  exact ⟨rfl, rfl, rfl⟩

/-- C1 at a concrete input: all three flags set, power and brightness fine, speed 11. -/
theorem set_state_invalid_all_or_nothing_witness :
    ((7 &&& RAINBOW_LED_STATE_CHANGE_SPEED ≠ 0 ∧ ¬ (1 ≤ 11 ∧ 11 ≤ 10)) ∨
      (7 &&& RAINBOW_LED_STATE_CHANGE_BRIGHTNESS ≠ 0 ∧ ¬ (0 ≤ 50 ∧ 50 ≤ 100))) ∧
    (rainbow_led_set_state world_off
        (some { power := true, speed := 11, brightness := 50, change := 7 })).ret
      = ESP_ERR_INVALID_ARG ∧
    (rainbow_led_set_state world_off
        (some { power := true, speed := 11, brightness := 50, change := 7 })).world
      = world_off ∧
    (rainbow_led_set_state world_off
        (some { power := true, speed := 11, brightness := 50, change := 7 })).effects = [] :=
  ⟨by decide,
    set_state_invalid_all_or_nothing world_off
      { power := true, speed := 11, brightness := 50, change := 7 } (by decide)⟩

/-- C2: `rainbow_led_set_state` fails (returns a code other than `ESP_OK`) exactly when
the request is null, or flags `SPEED` with a speed outside `[1,10]`, or flags `BRIGHTNESS`
with a brightness outside `[0,100]`; a failure always returns `ESP_ERR_INVALID_ARG`.  A
field whose flag is not set is neither checked nor written: when `SPEED` is not flagged
and the brightness part passes, the call succeeds whatever the speed carried and the
stored speed stays; likewise for `BRIGHTNESS`. -/
theorem set_state_fails_iff (w : World) (state : Option rainbow_led_state_t) :
    ((rainbow_led_set_state w state).ret ≠ ESP_OK ↔
      (state = none ∨ ∃ s, state = some s ∧
        ((s.change &&& RAINBOW_LED_STATE_CHANGE_SPEED ≠ 0 ∧ ¬ (1 ≤ s.speed ∧ s.speed ≤ 10)) ∨
          (s.change &&& RAINBOW_LED_STATE_CHANGE_BRIGHTNESS ≠ 0 ∧
            ¬ (0 ≤ s.brightness ∧ s.brightness ≤ 100))))) ∧
    ((rainbow_led_set_state w state).ret ≠ ESP_OK →
      (rainbow_led_set_state w state).ret = ESP_ERR_INVALID_ARG) ∧
    (∀ s, state = some s → s.change &&& RAINBOW_LED_STATE_CHANGE_SPEED = 0 →
      ¬ (s.change &&& RAINBOW_LED_STATE_CHANGE_BRIGHTNESS ≠ 0 ∧
          ¬ (0 ≤ s.brightness ∧ s.brightness ≤ 100)) →
      (rainbow_led_set_state w state).ret = ESP_OK ∧
        (rainbow_led_set_state w state).world.data.state.speed = w.data.state.speed) ∧
    (∀ s, state = some s → s.change &&& RAINBOW_LED_STATE_CHANGE_BRIGHTNESS = 0 →
      ¬ (s.change &&& RAINBOW_LED_STATE_CHANGE_SPEED ≠ 0 ∧ ¬ (1 ≤ s.speed ∧ s.speed ≤ 10)) →
      (rainbow_led_set_state w state).ret = ESP_OK ∧
        (rainbow_led_set_state w state).world.data.state.brightness =
          w.data.state.brightness) := by
  cases state with
  | none =>
    refine ⟨⟨fun _ => Or.inl rfl, fun _ => ?_⟩, fun _ => rfl, ?_, ?_⟩
    · show ESP_ERR_INVALID_ARG ≠ ESP_OK
      decide
    all_goals
      intro s hs
      cases hs
  | some s =>
    have hret := set_state_ret w s
    refine ⟨⟨?_, ?_⟩, ?_, ?_, ?_⟩
    · intro hne
      refine Or.inr ⟨s, rfl, ?_⟩
      by_contra hrej
      rw [if_neg (show ¬ rejected s from hrej)] at hret
      exact hne hret
    · rintro (hnone | ⟨t, ht, hrej⟩)
      · cases hnone
      · cases ht
        rw [hret, if_pos (show rejected s from hrej)]
        decide
    · intro hne
      by_cases hrej : rejected s
      · rw [hret, if_pos hrej]
      · rw [hret, if_neg hrej] at hne
        exact absurd rfl hne
    · intro t ht hs hb
      cases ht
      have hrej : ¬ rejected s := by
        rintro (⟨h1, _⟩ | h2)
        · exact h1 hs
        · exact hb h2
      rw [set_state_of_not_rejected w s hrej]
      exact ⟨rfl, by simp [hs]⟩
    · intro t ht hb hs
      cases ht
      have hrej : ¬ rejected s := by
        rintro (h1 | ⟨h2, _⟩)
        · exact hs h1
        · exact h2 hb
      rw [set_state_of_not_rejected w s hrej]
      exact ⟨rfl, by simp [hb]⟩

/-- C2 at a concrete input: only `POWER` flagged, the request carries speed 200 and
brightness 250; the call succeeds and the stored speed stays 5. -/
theorem set_state_fails_iff_witness :
    (rainbow_led_set_state world_off
        (some { power := true, speed := 200, brightness := 250, change := 1 })).ret = ESP_OK ∧
    (rainbow_led_set_state world_off
        (some { power := true, speed := 200, brightness := 250, change := 1 })).world.data.state.speed
      = world_off.data.state.speed :=
  (set_state_fails_iff world_off
    (some { power := true, speed := 200, brightness := 250, change := 1 })).2.2.1
    { power := true, speed := 200, brightness := 250, change := 1 } rfl (by decide) (by decide)

/-! ## Effect of a successful `rainbow_led_set_state` -/

/-- C3: with the change mask exactly `SPEED` and a speed in `[1,10]`, the call returns
`ESP_OK`, the stored speed becomes the supplied one and nothing else moves (stored power
and brightness, event bits, no collaborator call), whatever power and brightness the
request carries; with the mask exactly `BRIGHTNESS` and a brightness in `[0,100]`, the
same holds with the roles of speed and brightness exchanged. -/
theorem set_state_single_field (w : World) (s : rainbow_led_state_t) :
    (s.change = RAINBOW_LED_STATE_CHANGE_SPEED → 1 ≤ s.speed → s.speed ≤ 10 →
      rainbow_led_set_state w (some s) =
        { ret := ESP_OK
          world :=
            { w with data := { w.data with state := { w.data.state with speed := s.speed } } }
          effects := [] }) ∧
    (s.change = RAINBOW_LED_STATE_CHANGE_BRIGHTNESS → 0 ≤ s.brightness → s.brightness ≤ 100 →
      rainbow_led_set_state w (some s) =
        { ret := ESP_OK
          world :=
            { w with
              data := { w.data with state := { w.data.state with brightness := s.brightness } } }
          effects := [] }) := by
  constructor
  · intro hc h1 h2
    have hrej : ¬ rejected s := by
      unfold rejected
      rw [hc]
      rintro (⟨_, h⟩ | ⟨h, _⟩)
      · exact h ⟨h1, h2⟩
      · exact h (by decide)
    rw [set_state_of_not_rejected w s hrej, hc]
    rfl
  · intro hc h1 h2
    have hrej : ¬ rejected s := by
      unfold rejected
      rw [hc]
      rintro (⟨h, _⟩ | ⟨_, h⟩)
      · exact h (by decide)
      · exact h ⟨h1, h2⟩
    rw [set_state_of_not_rejected w s hrej, hc]
    rfl

/-- C3 at a concrete input: mask `SPEED`, speed 7, stray power and brightness values. -/
theorem set_state_single_field_witness :
    rainbow_led_set_state world_off
        (some { power := true, speed := 7, brightness := 255,
                change := RAINBOW_LED_STATE_CHANGE_SPEED }) =
      { ret := ESP_OK
        world :=
          { world_off with
            data := { world_off.data with state := { world_off.data.state with speed := 7 } } }
        effects := [] } :=
  (set_state_single_field world_off
    { power := true, speed := 7, brightness := 255,
      change := RAINBOW_LED_STATE_CHANGE_SPEED }).1 rfl (by decide) (by decide)

/-- C4: after a successful `rainbow_led_set_state`, each stored field is the request's
field when its flag is set and the old one otherwise.  When `POWER` is flagged the calls
made are `app_led_set_power` with the request's power followed by one gate call, setting
the gate bit when that power is true and clearing it when it is false; when `POWER` is not
flagged no call is made and the event bits stay. -/
theorem set_state_success_effect (w : World) (s : rainbow_led_state_t)
    (hok : (rainbow_led_set_state w (some s)).ret = ESP_OK) :
    (rainbow_led_set_state w (some s)).world.data.state.speed =
        (if s.change &&& RAINBOW_LED_STATE_CHANGE_SPEED ≠ 0 then s.speed
          else w.data.state.speed) ∧
    (rainbow_led_set_state w (some s)).world.data.state.brightness =
        (if s.change &&& RAINBOW_LED_STATE_CHANGE_BRIGHTNESS ≠ 0 then s.brightness
          else w.data.state.brightness) ∧
    (rainbow_led_set_state w (some s)).world.data.state.power =
        (if s.change &&& RAINBOW_LED_STATE_CHANGE_POWER ≠ 0 then s.power
          else w.data.state.power) ∧
    (s.change &&& RAINBOW_LED_STATE_CHANGE_POWER ≠ 0 →
      (s.power = true →
        (rainbow_led_set_state w (some s)).effects =
            [Effect.ledSetPower true, Effect.setBits RAINBOW_LED_EVENT_GROUP_BIT_POWER] ∧
          (rainbow_led_set_state w (some s)).world.event_bits =
            xEventGroupSetBits w.event_bits RAINBOW_LED_EVENT_GROUP_BIT_POWER ∧
          (rainbow_led_set_state w (some s)).world.event_bits &&&
            RAINBOW_LED_EVENT_GROUP_BIT_POWER = RAINBOW_LED_EVENT_GROUP_BIT_POWER) ∧
      (s.power = false →
        (rainbow_led_set_state w (some s)).effects =
            [Effect.ledSetPower false, Effect.clearBits RAINBOW_LED_EVENT_GROUP_BIT_POWER] ∧
          (rainbow_led_set_state w (some s)).world.event_bits =
            xEventGroupClearBits w.event_bits RAINBOW_LED_EVENT_GROUP_BIT_POWER ∧
          (rainbow_led_set_state w (some s)).world.event_bits &&&
            RAINBOW_LED_EVENT_GROUP_BIT_POWER = 0)) ∧
    (s.change &&& RAINBOW_LED_STATE_CHANGE_POWER = 0 →
      (rainbow_led_set_state w (some s)).effects = [] ∧
        (rainbow_led_set_state w (some s)).world.event_bits = w.event_bits) := by
  have hrej : ¬ rejected s := by
    intro h
    rw [set_state_of_rejected w s h] at hok
    exact absurd hok (show ESP_ERR_INVALID_ARG ≠ ESP_OK by decide)
  rw [set_state_of_not_rejected w s hrej]
  refine ⟨rfl, rfl, rfl, ?_, ?_⟩
  · intro hp
    constructor
    · intro ht
      refine ⟨?_, ?_, ?_⟩
      · simp only [hp, ht, ne_eq, not_false_eq_true, if_true]
      · simp only [hp, ne_eq, not_false_eq_true, ht, if_true]
      · simp only [hp, ne_eq, not_false_eq_true, ht, if_true]
        exact setBits_power_bit _
    · intro hf
      refine ⟨?_, ?_, ?_⟩
      · simp [hp, hf]
      · simp [hp, hf]
      · simp only [hp, ne_eq, not_false_eq_true, hf, if_true]
        exact clearBits_power_bit _
  · intro hp
    simp [hp]

/-- C4 at a concrete input: all flags set, power on, speed 3, brightness 80, from the
powered-off world. -/
theorem set_state_success_effect_witness :
    (rainbow_led_set_state world_off
        (some { power := true, speed := 3, brightness := 80, change := 7 })).ret = ESP_OK ∧
    (rainbow_led_set_state world_off
        (some { power := true, speed := 3, brightness := 80, change := 7 })).world.data.state.speed
      = 3 ∧
    (rainbow_led_set_state world_off
        (some { power := true, speed := 3, brightness := 80, change := 7 })).world.data.state.power
      = true :=
  ⟨by decide,
    (set_state_success_effect world_off
      { power := true, speed := 3, brightness := 80, change := 7 } (by decide)).1,
    (set_state_success_effect world_off
      { power := true, speed := 3, brightness := 80, change := 7 } (by decide)).2.2.1⟩

/-! ## Initialisation and the range of the stored fields -/

/-- C5: `rainbow_led_init` commits the caller's state without looking at its ranges.  With
every collaborator succeeding, an initial state of speed 0 and brightness 200 is accepted
with `ESP_OK` and stored as it is, so the state reached has its speed outside `[1,10]` and
its brightness outside `[0,100]`. -/
theorem init_commits_out_of_range_state :
    (rainbow_led_init
        { time := 1700000000, event_group := 0x3ffb2000, led_init := ESP_OK,
          button_init := ESP_OK, task_create := true }
        { data := _data, event_bits := 0 }
        (some { power := true, speed := 0, brightness := 200, change := 0 })
        0x400d1234).ret = ESP_OK ∧
    (rainbow_led_init
        { time := 1700000000, event_group := 0x3ffb2000, led_init := ESP_OK,
          button_init := ESP_OK, task_create := true }
        { data := _data, event_bits := 0 }
        (some { power := true, speed := 0, brightness := 200, change := 0 })
        0x400d1234).world.data.state =
      { power := true, speed := 0, brightness := 200, change := 0 } ∧
    ¬ (1 ≤ (rainbow_led_init
        { time := 1700000000, event_group := 0x3ffb2000, led_init := ESP_OK,
          button_init := ESP_OK, task_create := true }
        { data := _data, event_bits := 0 }
        (some { power := true, speed := 0, brightness := 200, change := 0 })
        0x400d1234).world.data.state.speed) ∧
    ¬ ((rainbow_led_init
        { time := 1700000000, event_group := 0x3ffb2000, led_init := ESP_OK,
          button_init := ESP_OK, task_create := true }
        { data := _data, event_bits := 0 }
        (some { power := true, speed := 0, brightness := 200, change := 0 })
        0x400d1234).world.data.state.brightness ≤ 100) := by
  decide

/-! ## The button handlers -/

/-- C6: a long press leaves the stored state as it was.  From the world with stored speed
5 and brightness 20, the draws 3 and 50 put speed 4 and brightness 50 in the snapshot
handed to the callback, and the stored speed and brightness are still 5 and 20. -/
theorem long_press_does_not_store :
    (_on_long_press world_on 3 50).2 =
      [Effect.callback world_on.data.callback
        { power := true, speed := 4, brightness := 50,
          change := RAINBOW_LED_STATE_CHANGE_SPEED ||| RAINBOW_LED_STATE_CHANGE_BRIGHTNESS }] ∧
    (_on_long_press world_on 3 50).1.data.state.speed = 5 ∧
    (_on_long_press world_on 3 50).1.data.state.brightness = 20 := by
  decide

/-- C7: for draws `r1`, `r2` that are not negative, a long press makes exactly one
collaborator call, the registered callback, with a snapshot whose change mask is
`SPEED | BRIGHTNESS`, whose speed is `r1 mod 10 + 1`, in `[1,10]`, whose brightness is
`r2 mod 101`, in `[0,100]`, and whose power is the stored power; the world, stored power
and event bits included, is left as it was. -/
theorem long_press_callback (w : World) (r1 r2 : Int) (h1 : 0 ≤ r1) (h2 : 0 ≤ r2) :
    (_on_long_press w r1 r2).2 =
      [Effect.callback w.data.callback
        { power := w.data.state.power
          speed := (r1 % 10 + 1).toNat
          brightness := (r2 % 101).toNat
          change := RAINBOW_LED_STATE_CHANGE_SPEED ||| RAINBOW_LED_STATE_CHANGE_BRIGHTNESS }] ∧
    (1 ≤ (r1 % 10 + 1).toNat ∧ (r1 % 10 + 1).toNat ≤ 10) ∧
    (0 ≤ (r2 % 101).toNat ∧ (r2 % 101).toNat ≤ 100) ∧
    (_on_long_press w r1 r2).1 = w := by
  have e1 : Int.tmod r1 10 = r1 % 10 := Int.tmod_eq_emod h1 (by decide)
  have e2 : Int.tmod r2 101 = r2 % 101 := Int.tmod_eq_emod h2 (by decide)
  have s1 : uint8_of_int (r1 % 10 + 1) = (r1 % 10 + 1).toNat := by
    unfold uint8_of_int
    congr 1
    omega
  have s2 : uint8_of_int (r2 % 101) = (r2 % 101).toNat := by
    unfold uint8_of_int
    congr 1
    omega
  refine ⟨?_, by omega, by omega, rfl⟩
  show [Effect.callback w.data.callback
      { power := w.data.state.power
        speed := uint8_of_int (Int.tmod r1 (((10 : Nat) : Int) - ((1 : Nat) : Int) + 1)
          + ((1 : Nat) : Int))
        brightness := uint8_of_int (Int.tmod r2 (((100 : Nat) : Int) - ((0 : Nat) : Int) + 1)
          + ((0 : Nat) : Int))
        change := RAINBOW_LED_STATE_CHANGE_SPEED ||| RAINBOW_LED_STATE_CHANGE_BRIGHTNESS }] = _
  have c1 : (((10 : Nat) : Int) - ((1 : Nat) : Int) + 1) = 10 := by decide
  have c2 : (((100 : Nat) : Int) - ((0 : Nat) : Int) + 1) = 101 := by decide
  have c3 : Int.tmod r2 101 + ((0 : Nat) : Int) = Int.tmod r2 101 := by simp
  have c4 : (((1 : Nat) : Int)) = 1 := rfl
  rw [c1, c2, c3, c4, e1, e2, s1, s2]

/-- C7 at a concrete input: the draws 1234567 and 202. -/
theorem long_press_callback_witness :
    (0 : Int) ≤ 1234567 ∧ (0 : Int) ≤ 202 ∧
    (_on_long_press world_off 1234567 202).2 =
      [Effect.callback world_off.data.callback
        { power := false, speed := 8, brightness := 0,
          change := RAINBOW_LED_STATE_CHANGE_SPEED ||| RAINBOW_LED_STATE_CHANGE_BRIGHTNESS }] ∧
    (_on_long_press world_off 1234567 202).1 = world_off :=
  ⟨by decide, by decide,
    (long_press_callback world_off 1234567 202 (by decide) (by decide)).1,
    (long_press_callback world_off 1234567 202 (by decide) (by decide)).2.2.2⟩

/-- The button handler `_on_short_press`, unfolded: the world it leaves and its calls. -/
theorem short_press_eq (w : World) :
    _on_short_press w =
      ({ data := { w.data with state := { w.data.state with power := !w.data.state.power } }
         event_bits :=
           if !w.data.state.power then
             xEventGroupSetBits w.event_bits RAINBOW_LED_EVENT_GROUP_BIT_POWER
           else xEventGroupClearBits w.event_bits RAINBOW_LED_EVENT_GROUP_BIT_POWER },
        [Effect.ledSetPower (!w.data.state.power),
          if !w.data.state.power then Effect.setBits RAINBOW_LED_EVENT_GROUP_BIT_POWER
          else Effect.clearBits RAINBOW_LED_EVENT_GROUP_BIT_POWER,
          Effect.callback w.data.callback
            { power := !w.data.state.power
              speed := w.data.state.speed
              brightness := w.data.state.brightness
              change := RAINBOW_LED_STATE_CHANGE_POWER }]) := by
  unfold _on_short_press _on_power_toggle
  cases hp : w.data.state.power <;> simp

/-- C8: a short press negates the stored power and leaves stored speed and brightness; it
calls `app_led_set_power` with the new power, then the gate (set for on, clear for off),
and last, once, the registered callback with a snapshot whose change mask is exactly
`POWER`, whose power is the new stored power and whose speed and brightness are the stored
ones. -/
theorem short_press_effect (w : World) :
    (_on_short_press w).1.data.state =
      { w.data.state with power := !w.data.state.power } ∧
    (_on_short_press w).1.data.callback = w.data.callback ∧
    (_on_short_press w).2 =
      [Effect.ledSetPower (!w.data.state.power),
        if !w.data.state.power then Effect.setBits RAINBOW_LED_EVENT_GROUP_BIT_POWER
        else Effect.clearBits RAINBOW_LED_EVENT_GROUP_BIT_POWER,
        Effect.callback w.data.callback
          { power := (_on_short_press w).1.data.state.power
            speed := w.data.state.speed
            brightness := w.data.state.brightness
            change := RAINBOW_LED_STATE_CHANGE_POWER }] := by
  unfold _on_short_press _on_power_toggle
  cases hp : w.data.state.power <;> simp

/-! ## One tick of the animation task -/

/-- C9: with the power on, a hue in `[0,360)`, a stored speed in `[1,10]` and a hue field
wide enough for the sum (9 bits or more), one pass of the loop does not block, leaves the
world, moves the hue to `(hue + speed) mod 360`, which is again in `[0,360)`, and makes
exactly the calls render and delay, the rendered colour being the new hue, saturation 100
and the brightness stored at that pass. -/
theorem task_tick_running (hueBits : Nat) (w : World) (color : app_led_color_hsv_t)
    (hbits : 9 ≤ hueBits) (hpower : w.data.state.power = true)
    (hhue : color.hue < 360) (hsat : color.saturation = 100)
    (hlo : 1 ≤ w.data.state.speed) (hhi : w.data.state.speed ≤ 10) :
    _task_function_iteration hueBits w color =
      { world := w
        color :=
          { hue := (color.hue + w.data.state.speed) % 360
            saturation := 100
            brightness := w.data.state.brightness }
        effects :=
          [Effect.ledSetColor
              { hue := (color.hue + w.data.state.speed) % 360
                saturation := 100
                brightness := w.data.state.brightness },
            Effect.taskDelay 50]
        blocked := false } ∧
    (color.hue + w.data.state.speed) % 360 < 360 := by
  have hpow : 2 ^ 9 ≤ 2 ^ hueBits := Nat.pow_le_pow_right (by decide) hbits
  have hsum : (color.hue + w.data.state.speed) % 2 ^ hueBits =
      color.hue + w.data.state.speed :=
    Nat.mod_eq_of_lt (by have : (2 : Nat) ^ 9 = 512 := by decide
                         omega)
  refine ⟨?_, Nat.mod_lt _ (by decide)⟩
  unfold _task_function_iteration _task_function_render
  simp only [hpower, Bool.not_true, Bool.false_eq_true, if_false, hsum, ge_iff_le]
  by_cases hge : 360 ≤ color.hue + w.data.state.speed
  · have hmod : (color.hue + w.data.state.speed) % 360 =
        color.hue + w.data.state.speed - 360 := by omega
    simp only [hge, if_true, hmod, ← hsat]
  · have hmod : (color.hue + w.data.state.speed) % 360 =
        color.hue + w.data.state.speed := by omega
    simp only [hge, if_false, hmod, ← hsat]

/-- C9 at the input of the contract: speed 7 and hue 358 give hue 5, on a 16-bit hue. -/
theorem task_tick_running_witness :
    _task_function_iteration 16
        { world_on with
          data := { world_on.data with state := { world_on.data.state with speed := 7 } } }
        { hue := 358, saturation := 100, brightness := 20 } =
      { world :=
          { world_on with
            data := { world_on.data with state := { world_on.data.state with speed := 7 } } }
        color := { hue := 5, saturation := 100, brightness := 20 }
        effects :=
          [Effect.ledSetColor { hue := 5, saturation := 100, brightness := 20 },
            Effect.taskDelay 50]
        blocked := false } :=
  (task_tick_running 16
    { world_on with
      data := { world_on.data with state := { world_on.data.state with speed := 7 } } }
    { hue := 358, saturation := 100, brightness := 20 }
    (by decide) rfl (by decide) rfl (by decide) (by decide)).1

/-! ## The gate signal -/

/-- C10, as stated, fails: with the power already on, a request that flags `POWER` with
power on makes the call `xEventGroupSetBits` again, although power did not go from off to
on. -/
theorem gate_signal_reemitted_when_already_on :
    ¬ (Effect.setBits RAINBOW_LED_EVENT_GROUP_BIT_POWER ∈
          (rainbow_led_set_state world_on
            (some { power := true, speed := 5, brightness := 20,
                    change := RAINBOW_LED_STATE_CHANGE_POWER })).effects ↔
        (world_on.data.state.power = false ∧
          (rainbow_led_set_state world_on
            (some { power := true, speed := 5, brightness := 20,
                    change := RAINBOW_LED_STATE_CHANGE_POWER })).world.data.state.power
            = true)) := by
  decide

/-- C10, amended: a power-changing operation signals the gate once when the new power is
on, whatever the power was before, and not at all when the new power is off.  For a
successful `rainbow_led_set_state` flagging `POWER` the number of `xEventGroupSetBits`
calls is 1 when the request's power is on and 0 when it is off; for a short press, which
negates the power, it is 1 when the power was off and 0 when it was on. -/
theorem gate_signal_iff_new_power_on (w : World) (s : rainbow_led_state_t) :
    (s.change &&& RAINBOW_LED_STATE_CHANGE_POWER ≠ 0 →
      (rainbow_led_set_state w (some s)).ret = ESP_OK →
      (rainbow_led_set_state w (some s)).effects.count
          (Effect.setBits RAINBOW_LED_EVENT_GROUP_BIT_POWER) =
        (if s.power then 1 else 0) ∧
      (rainbow_led_set_state w (some s)).world.data.state.power = s.power) ∧
    ((_on_short_press w).2.count (Effect.setBits RAINBOW_LED_EVENT_GROUP_BIT_POWER) =
        (if w.data.state.power then 0 else 1) ∧
      (_on_short_press w).1.data.state.power = !w.data.state.power) := by
  constructor
  · intro hp hok
    have hrej : ¬ rejected s := by
      intro h
      rw [set_state_of_rejected w s h] at hok
      exact absurd hok (show ESP_ERR_INVALID_ARG ≠ ESP_OK by decide)
    rw [set_state_of_not_rejected w s hrej]
    simp only [hp, ne_eq, not_false_eq_true, if_true]
    refine ⟨?_, trivial⟩
    cases s.power <;> decide
  · rw [short_press_eq w]
    refine ⟨?_, rfl⟩
    cases w.data.state.power <;> simp [List.count_cons]

/-- C10, amended, at a concrete input: power on requested while the power is on; the call
succeeds and signals the gate once. -/
theorem gate_signal_iff_new_power_on_witness :
    (rainbow_led_set_state world_on
        (some { power := true, speed := 5, brightness := 20,
                change := RAINBOW_LED_STATE_CHANGE_POWER })).ret = ESP_OK ∧
    (rainbow_led_set_state world_on
        (some { power := true, speed := 5, brightness := 20,
                change := RAINBOW_LED_STATE_CHANGE_POWER })).effects.count
        (Effect.setBits RAINBOW_LED_EVENT_GROUP_BIT_POWER) = 1 :=
  ⟨by decide,
    ((gate_signal_iff_new_power_on world_on
      { power := true, speed := 5, brightness := 20,
        change := RAINBOW_LED_STATE_CHANGE_POWER }).1 (by decide) (by decide)).1⟩

/-! ## `rainbow_led_init`: arguments, order and errors -/

/-- C12: when `initial_state` is null or `callback` is null, `rainbow_led_init` returns
`ESP_ERR_INVALID_ARG`, leaves the world (stored state, registered callback, gate handle,
event bits) as it was and calls no collaborator: no `srand`, no gate allocation, no LED or
button initialisation, no task creation. -/
theorem init_null_argument (env : InitEnv) (w : World)
    (initial_state : Option rainbow_led_state_t) (callback : rainbow_led_callback_t)
    (h : initial_state = none ∨ callback = 0) :
    rainbow_led_init env w initial_state callback =
      { ret := ESP_ERR_INVALID_ARG, world := w, effects := [] } := by
  unfold rainbow_led_init
  cases initial_state with
  | none => rfl
  | some init =>
    rcases h with h | h
    · cases h
    · simp only [h, if_true]

/-- C12 at a concrete input: a state is supplied, the callback is null. -/
theorem init_null_argument_witness :
    ((some world_on.data.state = none ∨ (0 : rainbow_led_callback_t) = 0)) ∧
    rainbow_led_init env_ok { data := _data, event_bits := 0 } (some world_on.data.state) 0 =
      { ret := ESP_ERR_INVALID_ARG, world := { data := _data, event_bits := 0 },
        effects := [] } :=
  ⟨Or.inr rfl,
    init_null_argument env_ok { data := _data, event_bits := 0 } (some world_on.data.state) 0
      (Or.inr rfl)⟩

/-- C13: with both arguments non-null and the gate allocated, `rainbow_led_init` calls, in
this order, `srand`, the gate allocation, the LED initialiser, the button initialiser,
`app_led_set_power` and `xTaskCreate`.  When the LED initialiser fails with `e` the call
returns `e` after the first three calls, the button initialiser not being called; when the
button initialiser fails with `e` the call returns `e` after the first four; in both cases
the stored state and the registered callback are as before and no task is created.  When
both succeed the call returns `ESP_OK`, the stored state is the initial state, the
callback is registered and `app_led_set_power` got the initial power. -/
theorem init_order_and_errors (env : InitEnv) (w : World) (init : rainbow_led_state_t)
    (callback : rainbow_led_callback_t) (hcb : callback ≠ 0) (hgate : env.event_group ≠ 0) :
    (env.led_init ≠ ESP_OK →
      (rainbow_led_init env w (some init) callback).ret = env.led_init ∧
      (rainbow_led_init env w (some init) callback).effects =
        [Effect.srand env.time, Effect.eventGroupCreate, Effect.ledInit] ∧
      (rainbow_led_init env w (some init) callback).world.data.state = w.data.state ∧
      (rainbow_led_init env w (some init) callback).world.data.callback = w.data.callback) ∧
    (env.led_init = ESP_OK → env.button_init ≠ ESP_OK →
      (rainbow_led_init env w (some init) callback).ret = env.button_init ∧
      (rainbow_led_init env w (some init) callback).effects =
        [Effect.srand env.time, Effect.eventGroupCreate, Effect.ledInit,
          Effect.buttonInit] ∧
      (rainbow_led_init env w (some init) callback).world.data.state = w.data.state ∧
      (rainbow_led_init env w (some init) callback).world.data.callback = w.data.callback) ∧
    (env.led_init = ESP_OK → env.button_init = ESP_OK →
      (rainbow_led_init env w (some init) callback).ret = ESP_OK ∧
      (rainbow_led_init env w (some init) callback).effects =
        [Effect.srand env.time, Effect.eventGroupCreate, Effect.ledInit, Effect.buttonInit,
          Effect.ledSetPower init.power, Effect.taskCreate] ∧
      (rainbow_led_init env w (some init) callback).world.data.state = init ∧
      (rainbow_led_init env w (some init) callback).world.data.callback = callback) := by
  unfold rainbow_led_init
  simp only [hcb, hgate, if_false]
  refine ⟨?_, ?_, ?_⟩
  · intro hled
    simp only [hled, ne_eq, not_false_eq_true, if_true]
    exact ⟨trivial, trivial, trivial, trivial⟩
  · intro hled hbtn
    simp only [hled, hbtn, ne_eq, not_true_eq_false, not_false_eq_true, if_true, if_false]
    exact ⟨trivial, trivial, trivial, trivial⟩
  · intro hled hbtn
    simp only [hled, hbtn, ne_eq, not_true_eq_false, if_false]
    exact ⟨trivial, trivial, trivial, trivial⟩

/-- C13 at a concrete input: the LED initialiser fails with `ESP_FAIL` (-1). -/
theorem init_order_and_errors_witness :
    (rainbow_led_init { env_ok with led_init := -1 } { data := _data, event_bits := 0 }
        (some world_on.data.state) 0x400d1234).ret = -1 ∧
    (rainbow_led_init { env_ok with led_init := -1 } { data := _data, event_bits := 0 }
        (some world_on.data.state) 0x400d1234).effects =
      [Effect.srand 1700000000, Effect.eventGroupCreate, Effect.ledInit] ∧
    (rainbow_led_init { env_ok with led_init := -1 } { data := _data, event_bits := 0 }
        (some world_on.data.state) 0x400d1234).world.data.state = _data.state ∧
    (rainbow_led_init { env_ok with led_init := -1 } { data := _data, event_bits := 0 }
        (some world_on.data.state) 0x400d1234).world.data.callback = _data.callback :=
  (init_order_and_errors { env_ok with led_init := -1 } { data := _data, event_bits := 0 }
    world_on.data.state 0x400d1234 (by decide) (by decide)).1 (by decide)

/-- When the gate cannot be allocated, `rainbow_led_init` returns `ESP_ERR_NO_MEM` after
`srand` and the allocation attempt, before any driver is initialised. -/
theorem init_gate_allocation_failure (env : InitEnv) (w : World) (init : rainbow_led_state_t)
    (callback : rainbow_led_callback_t) (hcb : callback ≠ 0) (hgate : env.event_group = 0) :
    (rainbow_led_init env w (some init) callback).ret = ESP_ERR_NO_MEM ∧
    (rainbow_led_init env w (some init) callback).effects =
      [Effect.srand env.time, Effect.eventGroupCreate] := by
  unfold rainbow_led_init
  simp only [hcb, hgate, if_false, if_true]
  exact ⟨trivial, trivial⟩

/-- C14: when `xTaskCreate` fails, everything before it having succeeded,
`rainbow_led_init` still returns `ESP_OK`, not `ESP_ERR_NO_MEM`. -/
theorem init_ignores_task_creation_failure :
    (rainbow_led_init { env_ok with task_create := false } { data := _data, event_bits := 0 }
        (some { power := true, speed := 5, brightness := 20, change := 0 })
        0x400d1234).ret = ESP_OK ∧
    (rainbow_led_init { env_ok with task_create := false } { data := _data, event_bits := 0 }
        (some { power := true, speed := 5, brightness := 20, change := 0 })
        0x400d1234).ret ≠ ESP_ERR_NO_MEM := by
  decide

/-! ## Algebra and frame of `rainbow_led_set_state` -/

/-- Setting the power bit twice is setting it once. -/
theorem setBits_idem (b m : Nat) :
    xEventGroupSetBits (xEventGroupSetBits b m) m = xEventGroupSetBits b m := by
  unfold xEventGroupSetBits
  rw [Nat.or_assoc, Nat.or_self]

/-- Clearing the power bit twice is clearing it once. -/
theorem clearBits_idem (b m : Nat) :
    xEventGroupClearBits (xEventGroupClearBits b m) m = xEventGroupClearBits b m := by
  unfold xEventGroupClearBits
  rw [Nat.and_assoc, Nat.and_self]

/-- C15: for a request on which `rainbow_led_set_state` succeeds, applying it a second
time succeeds again and leaves the same world (stored power, speed and brightness, and
the event bits) as applying it once. -/
theorem set_state_idempotent (w : World) (s : rainbow_led_state_t)
    (hok : (rainbow_led_set_state w (some s)).ret = ESP_OK) :
    (rainbow_led_set_state (rainbow_led_set_state w (some s)).world (some s)).ret = ESP_OK ∧
    (rainbow_led_set_state (rainbow_led_set_state w (some s)).world (some s)).world =
      (rainbow_led_set_state w (some s)).world := by
  have hrej : ¬ rejected s := by
    intro h
    rw [set_state_of_rejected w s h] at hok
    exact absurd hok (show ESP_ERR_INVALID_ARG ≠ ESP_OK by decide)
  rw [set_state_of_not_rejected _ s hrej, set_state_of_not_rejected w s hrej]
  refine ⟨rfl, ?_⟩
  by_cases hp : s.change &&& RAINBOW_LED_STATE_CHANGE_POWER ≠ 0 <;>
    by_cases hs : s.change &&& RAINBOW_LED_STATE_CHANGE_SPEED ≠ 0 <;>
    by_cases hb : s.change &&& RAINBOW_LED_STATE_CHANGE_BRIGHTNESS ≠ 0 <;>
    cases hpow : s.power <;>
    simp [hp, hs, hb, setBits_idem, clearBits_idem]

/-- C15 at a concrete input: all flags, power on, speed 3, brightness 80, applied twice
from the powered-off world. -/
theorem set_state_idempotent_witness :
    (rainbow_led_set_state world_off
        (some { power := true, speed := 3, brightness := 80, change := 7 })).ret = ESP_OK ∧
    (rainbow_led_set_state
        (rainbow_led_set_state world_off
          (some { power := true, speed := 3, brightness := 80, change := 7 })).world
        (some { power := true, speed := 3, brightness := 80, change := 7 })).world =
      (rainbow_led_set_state world_off
        (some { power := true, speed := 3, brightness := 80, change := 7 })).world :=
  ⟨by decide,
    (set_state_idempotent world_off
      { power := true, speed := 3, brightness := 80, change := 7 } (by decide)).2⟩

/-- C17: whatever the world and the request (valid, invalid or null), no call made by
`rainbow_led_set_state` is a call of a callback. -/
theorem set_state_never_calls_back (w : World) (state : Option rainbow_led_state_t)
    (fn : rainbow_led_callback_t) (snapshot : rainbow_led_state_t) :
    Effect.callback fn snapshot ∉ (rainbow_led_set_state w state).effects := by
  cases state with
  | none => exact List.not_mem_nil _
  | some s =>
    by_cases hrej : rejected s
    · rw [set_state_of_rejected w s hrej]
      exact List.not_mem_nil _
    · rw [set_state_of_not_rejected w s hrej]
      by_cases hp : s.change &&& RAINBOW_LED_STATE_CHANGE_POWER ≠ 0
      · cases hpow : s.power <;> simp [hp]
      · simp [hp]

/-- C18: when the stored speed is in `[1,10]` and the stored brightness in `[0,100]`, they
still are after `rainbow_led_set_state`, whatever the request (any speed, brightness and
mask, or null) and whether the call succeeds or fails. -/
theorem set_state_preserves_ranges (w : World) (state : Option rainbow_led_state_t)
    (hs : 1 ≤ w.data.state.speed ∧ w.data.state.speed ≤ 10)
    (hb : 0 ≤ w.data.state.brightness ∧ w.data.state.brightness ≤ 100) :
    (1 ≤ (rainbow_led_set_state w state).world.data.state.speed ∧
      (rainbow_led_set_state w state).world.data.state.speed ≤ 10) ∧
    (0 ≤ (rainbow_led_set_state w state).world.data.state.brightness ∧
      (rainbow_led_set_state w state).world.data.state.brightness ≤ 100) := by
  cases state with
  | none => exact ⟨hs, hb⟩
  | some s =>
    by_cases hrej : rejected s
    · rw [set_state_of_rejected w s hrej]
      exact ⟨hs, hb⟩
    · rw [set_state_of_not_rejected w s hrej]
      unfold rejected at hrej
      constructor
      · show 1 ≤ (if s.change &&& RAINBOW_LED_STATE_CHANGE_SPEED ≠ 0 then s.speed
            else w.data.state.speed) ∧
          (if s.change &&& RAINBOW_LED_STATE_CHANGE_SPEED ≠ 0 then s.speed
            else w.data.state.speed) ≤ 10
        split_ifs with h
        · by_contra hc
          exact hrej (Or.inl ⟨h, hc⟩)
        · exact hs
      · show 0 ≤ (if s.change &&& RAINBOW_LED_STATE_CHANGE_BRIGHTNESS ≠ 0 then s.brightness
            else w.data.state.brightness) ∧
          (if s.change &&& RAINBOW_LED_STATE_CHANGE_BRIGHTNESS ≠ 0 then s.brightness
            else w.data.state.brightness) ≤ 100
        split_ifs with h
        · by_contra hc
          exact hrej (Or.inr ⟨h, hc⟩)
        · exact hb

/-- C18 at a concrete input: a request flagging everything with speed 255 and brightness
255 against the stored speed 5 and brightness 20. -/
theorem set_state_preserves_ranges_witness :
    (1 ≤ (rainbow_led_set_state world_on
        (some { power := false, speed := 255, brightness := 255, change := 7 })
        ).world.data.state.speed ∧
      (rainbow_led_set_state world_on
        (some { power := false, speed := 255, brightness := 255, change := 7 })
        ).world.data.state.speed ≤ 10) ∧
    (0 ≤ (rainbow_led_set_state world_on
        (some { power := false, speed := 255, brightness := 255, change := 7 })
        ).world.data.state.brightness ∧
      (rainbow_led_set_state world_on
        (some { power := false, speed := 255, brightness := 255, change := 7 })
        ).world.data.state.brightness ≤ 100) :=
  set_state_preserves_ranges world_on
    (some { power := false, speed := 255, brightness := 255, change := 7 })
    (by decide) (by decide)

/-! ## The machine: shape of a step and what every reachable state satisfies -/

/-- The wait called at the top of the loop: the task is suspended when the power bit is
not there, otherwise the bit is consumed and the pass renders. -/
theorem task_wait_eq (hueBits : Nat) (w : World) (color : app_led_color_hsv_t) :
    _task_function_wait hueBits w color =
      if w.event_bits &&& RAINBOW_LED_EVENT_GROUP_BIT_POWER = RAINBOW_LED_EVENT_GROUP_BIT_POWER
      then
        _task_function_render hueBits
          { w with
            event_bits := xEventGroupClearBits w.event_bits RAINBOW_LED_EVENT_GROUP_BIT_POWER }
          color
      else { world := w, color := color, effects := [], blocked := true } := by
  unfold _task_function_wait xEventGroupWaitBits _task_function_woken
  by_cases h : w.event_bits &&& RAINBOW_LED_EVENT_GROUP_BIT_POWER =
      RAINBOW_LED_EVENT_GROUP_BIT_POWER
  · have hbit : RAINBOW_LED_EVENT_GROUP_BIT_POWER ≠ 0 := by decide
    simp [h, hbit]
  · simp [h]

/-- The power bit is either there or not: `bits & 1` is `0` or `1`. -/
theorem power_bit_cases (b : Nat) :
    b &&& RAINBOW_LED_EVENT_GROUP_BIT_POWER = 0 ∨
      b &&& RAINBOW_LED_EVENT_GROUP_BIT_POWER = RAINBOW_LED_EVENT_GROUP_BIT_POWER := by
  show b &&& 1 = 0 ∨ b &&& 1 = 1
  rw [Nat.and_one_is_mod]
  omega

/-- The hue after a render, in the source's own terms. -/
theorem render_hue_lt (hueBits : Nat) (w : World) (color : app_led_color_hsv_t)
    (hbits : 10 ≤ hueBits) (hhue : color.hue < 360) (hspeed : w.data.state.speed ≤ 255) :
    color.hue + w.data.state.speed < 2 ^ hueBits ∧
    (_task_function_render hueBits w color).color.hue =
      (color.hue + w.data.state.speed) % 360 ∧
    (_task_function_render hueBits w color).color.hue < 360 := by
  have hpow : 2 ^ 10 ≤ 2 ^ hueBits := Nat.pow_le_pow_right (by decide) hbits
  have h1024 : (2 : Nat) ^ 10 = 1024 := by decide
  have hlt : color.hue + w.data.state.speed < 2 ^ hueBits := by omega
  have hsum : (color.hue + w.data.state.speed) % 2 ^ hueBits =
      color.hue + w.data.state.speed := Nat.mod_eq_of_lt hlt
  have hval : (_task_function_render hueBits w color).color.hue =
      (color.hue + w.data.state.speed) % 360 := by
    unfold _task_function_render
    simp only [hsum, ge_iff_le]
    by_cases hge : 360 ≤ color.hue + w.data.state.speed
    · simp only [hge, if_true]
      omega
    · simp only [hge, if_false]
      omega
  exact ⟨hlt, hval, by rw [hval]; exact Nat.mod_lt _ (by decide)⟩

/-- A successful `rainbow_led_init`, in full: the world it leaves and its calls. -/
theorem init_of_ok (env : InitEnv) (w : World) (init : rainbow_led_state_t)
    (callback : rainbow_led_callback_t)
    (hok : (rainbow_led_init env w (some init) callback).ret = ESP_OK) :
    rainbow_led_init env w (some init) callback =
      { ret := ESP_OK
        world :=
          { data := { state := init, callback := callback, event_group := env.event_group }
            event_bits := 0 }
        effects :=
          [Effect.srand env.time, Effect.eventGroupCreate, Effect.ledInit, Effect.buttonInit,
            Effect.ledSetPower init.power, Effect.taskCreate] } := by
  unfold rainbow_led_init at hok ⊢
  by_cases hcb : callback = 0
  · simp only [hcb, if_true] at hok
    exact absurd hok (show ESP_ERR_INVALID_ARG ≠ ESP_OK by decide)
  · by_cases hg : env.event_group = 0
    · simp only [hcb, hg, if_true, if_false] at hok
      exact absurd hok (show ESP_ERR_NO_MEM ≠ ESP_OK by decide)
    · by_cases hled : env.led_init = ESP_OK
      · by_cases hbtn : env.button_init = ESP_OK
        · simp [hcb, hg, hled, hbtn]
        · simp only [hcb, hg, hled, hbtn, ne_eq, not_true_eq_false, not_false_eq_true,
            if_true, if_false] at hok
      · simp only [hcb, hg, hled, ne_eq, not_false_eq_true, if_true, if_false] at hok

/-- The power output after more calls: the later calls are folded onto the earlier
result. -/
theorem app_led_power_append (t es : List Effect) :
    app_led_power (t ++ es) =
      es.foldl
        (fun acc e =>
          match e with
          | Effect.ledSetPower power => some power
          | _ => acc)
        (app_led_power t) := by
  unfold app_led_power
  rw [List.foldl_append]

/-- The handover leaves the driver's record alone and keeps the event bits or clears the
power bit. -/
theorem gate_handover_world (waiting : Bool) (effects : List Effect) (w : World) :
    (gate_handover waiting effects w).1.data = w.data ∧
    ((gate_handover waiting effects w).1.event_bits = w.event_bits ∨
      (gate_handover waiting effects w).1.event_bits =
        xEventGroupClearBits w.event_bits RAINBOW_LED_EVENT_GROUP_BIT_POWER) := by
  unfold gate_handover xEventGroupWaitBits
  by_cases hc : (waiting && effects.any Effect.isSetBits) = true
  · by_cases hb : w.event_bits &&& RAINBOW_LED_EVENT_GROUP_BIT_POWER =
        RAINBOW_LED_EVENT_GROUP_BIT_POWER
    · simp [hc, hb]
    · simp [hc, hb]
  · simp [hc]

/-- A control-path step keeps the colour of the task, appends the calls of the operation,
leaves the driver's record as the operation left it, and keeps the event bits of the
operation or clears the power bit in them. -/
theorem control_step_facts (m : Machine) (w : World) (effects : List Effect) :
    (control_step m w effects).world.data = w.data ∧
    ((control_step m w effects).world.event_bits = w.event_bits ∨
      (control_step m w effects).world.event_bits =
        xEventGroupClearBits w.event_bits RAINBOW_LED_EVENT_GROUP_BIT_POWER) ∧
    (control_step m w effects).trace = m.trace ++ effects ∧
    (control_step m w effects).color = m.color := by
  obtain ⟨hd, hb⟩ := gate_handover_world m.waiting effects w
  unfold control_step
  rcases hg : gate_handover m.waiting effects w with ⟨w1, _ | bits⟩
  · rw [hg] at hd hb
    exact ⟨hd, hb, rfl, rfl⟩
  · rw [hg] at hd hb
    exact ⟨hd, hb, rfl, rfl⟩

/-- A task made ready by a handover returns from its wait with the latched bits. -/
theorem loop_pass_latched (hueBits : Nat) (m : Machine) (bits : Nat)
    (hl : m.latched = some bits) :
    loop_pass hueBits m = _task_function_woken hueBits m.world m.color bits := by
  unfold loop_pass
  rw [hl]

/-- A task still suspended does nothing. -/
theorem loop_pass_suspended (hueBits : Nat) (m : Machine) (hl : m.latched = none)
    (hw : m.waiting = true) :
    loop_pass hueBits m =
      { world := m.world, color := m.color, effects := [], blocked := true } := by
  unfold loop_pass
  rw [hl]
  simp [hw]

/-- A task that is neither made ready nor suspended starts a pass at the top of the
loop. -/
theorem loop_pass_top (hueBits : Nat) (m : Machine) (hl : m.latched = none)
    (hw : m.waiting = false) :
    loop_pass hueBits m = _task_function_iteration hueBits m.world m.color := by
  unfold loop_pass
  rw [hl]
  simp [hw]

/-- A pass of the task leaves the driver's record alone, keeps the event bits or clears
the power bit, and calls nothing or renders and delays. -/
theorem loop_pass_facts (hueBits : Nat) (m : Machine) :
    (loop_pass hueBits m).world.data = m.world.data ∧
    ((loop_pass hueBits m).world.event_bits = m.world.event_bits ∨
      (loop_pass hueBits m).world.event_bits =
        xEventGroupClearBits m.world.event_bits RAINBOW_LED_EVENT_GROUP_BIT_POWER) ∧
    ((loop_pass hueBits m).effects = [] ∨
      (loop_pass hueBits m).effects =
        [Effect.ledSetColor (loop_pass hueBits m).color, Effect.taskDelay 50]) ∧
    ((loop_pass hueBits m).color = m.color ∨
      ∃ w : World, w.data = m.world.data ∧
        (loop_pass hueBits m).color = (_task_function_render hueBits w m.color).color) := by
  cases hl : m.latched with
  | some bits =>
    rw [loop_pass_latched hueBits m bits hl]
    unfold _task_function_woken
    by_cases hb : bits &&& RAINBOW_LED_EVENT_GROUP_BIT_POWER = 0
    · rw [if_pos hb]
      exact ⟨rfl, Or.inl rfl, Or.inl rfl, Or.inl rfl⟩
    · rw [if_neg hb]
      exact ⟨rfl, Or.inl rfl, Or.inr rfl, Or.inr ⟨m.world, rfl, rfl⟩⟩
  | none =>
    cases hw : m.waiting with
    | true =>
      rw [loop_pass_suspended hueBits m hl hw]
      exact ⟨rfl, Or.inl rfl, Or.inl rfl, Or.inl rfl⟩
    | false =>
      rw [loop_pass_top hueBits m hl hw]
      unfold _task_function_iteration
      cases hp : m.world.data.state.power with
      | true =>
        rw [if_neg (by simp)]
        exact ⟨rfl, Or.inl rfl, Or.inr rfl, Or.inr ⟨m.world, rfl, rfl⟩⟩
      | false =>
        rw [if_pos (by simp), task_wait_eq]
        by_cases hb : m.world.event_bits &&& RAINBOW_LED_EVENT_GROUP_BIT_POWER =
            RAINBOW_LED_EVENT_GROUP_BIT_POWER
        · rw [if_pos hb]
          exact ⟨rfl, Or.inr rfl, Or.inr rfl, Or.inr ⟨_, rfl, rfl⟩⟩
        · rw [if_neg hb]
          exact ⟨rfl, Or.inl rfl, Or.inl rfl, Or.inl rfl⟩

/-- An operation of one of three kinds (it keeps the stored power, the event bits and the
LED power output; or it leaves both powers on; or it leaves both powers off with the
power bit cleared) gives a step of the machine of the matching kind, the handover being
able to clear the power bit only. -/
theorem control_step_shape (m : Machine) (w : World) (effects : List Effect)
    (hop : (w.data.state.power = m.world.data.state.power ∧
        w.event_bits = m.world.event_bits ∧
        app_led_power (m.trace ++ effects) = app_led_power m.trace) ∨
      (w.data.state.power = true ∧ app_led_power (m.trace ++ effects) = some true) ∨
      (w.data.state.power = false ∧
        w.event_bits &&& RAINBOW_LED_EVENT_GROUP_BIT_POWER = 0 ∧
        app_led_power (m.trace ++ effects) = some false)) :
    ((control_step m w effects).world.data.state.power = m.world.data.state.power ∧
      ((control_step m w effects).world.event_bits &&& RAINBOW_LED_EVENT_GROUP_BIT_POWER ≠ 0 →
        m.world.event_bits &&& RAINBOW_LED_EVENT_GROUP_BIT_POWER ≠ 0) ∧
      app_led_power (control_step m w effects).trace = app_led_power m.trace) ∨
    ((control_step m w effects).world.data.state.power = true ∧
      app_led_power (control_step m w effects).trace = some true) ∨
    ((control_step m w effects).world.data.state.power = false ∧
      (control_step m w effects).world.event_bits &&& RAINBOW_LED_EVENT_GROUP_BIT_POWER = 0 ∧
      app_led_power (control_step m w effects).trace = some false) := by
  obtain ⟨hd, hb, ht, _⟩ := control_step_facts m w effects
  rw [hd, ht]
  rcases hop with ⟨hp, hbits, hled⟩ | ⟨hp, hled⟩ | ⟨hp, hbits, hled⟩
  · left
    refine ⟨hp, ?_, hled⟩
    intro hset
    rcases hb with hb | hb
    · rw [hb, hbits] at hset
      exact hset
    · rw [hb, clearBits_power_bit] at hset
      exact absurd rfl hset
  · right; left
    exact ⟨hp, hled⟩
  · right; right
    refine ⟨hp, ?_, hled⟩
    rcases hb with hb | hb
    · rw [hb]; exact hbits
    · rw [hb]; exact clearBits_power_bit _

/-- Every atomic step is of one of three kinds: it keeps the stored power and the LED
power output and does not set the power bit; or it leaves both powers on; or it leaves
both powers off and the power bit cleared. -/
theorem machine_step_shape (hueBits : Nat) (m : Machine) (e : Event) :
    ((machine_step hueBits m e).world.data.state.power = m.world.data.state.power ∧
      ((machine_step hueBits m e).world.event_bits &&& RAINBOW_LED_EVENT_GROUP_BIT_POWER ≠ 0 →
        m.world.event_bits &&& RAINBOW_LED_EVENT_GROUP_BIT_POWER ≠ 0) ∧
      app_led_power (machine_step hueBits m e).trace = app_led_power m.trace) ∨
    ((machine_step hueBits m e).world.data.state.power = true ∧
      app_led_power (machine_step hueBits m e).trace = some true) ∨
    ((machine_step hueBits m e).world.data.state.power = false ∧
      (machine_step hueBits m e).world.event_bits &&& RAINBOW_LED_EVENT_GROUP_BIT_POWER = 0 ∧
      app_led_power (machine_step hueBits m e).trace = some false) := by
  cases e with
  | set_state state =>
    simp only [machine_step]
    apply control_step_shape
    cases state with
    | none =>
      left
      exact ⟨rfl, rfl, by rw [app_led_power_append]; rfl⟩
    | some s =>
      by_cases hrej : rejected s
      · rw [set_state_of_rejected m.world s hrej]
        left
        exact ⟨rfl, rfl, by rw [app_led_power_append]; rfl⟩
      · rw [set_state_of_not_rejected m.world s hrej]
        by_cases hp : s.change &&& RAINBOW_LED_STATE_CHANGE_POWER ≠ 0
        · cases hpow : s.power
          · right; right
            simp [hp, app_led_power_append, clearBits_power_bit]
          · right; left
            simp [hp, app_led_power_append]
        · left
          simp [hp, app_led_power_append]
  | short_press =>
    simp only [machine_step]
    apply control_step_shape
    rw [short_press_eq m.world]
    cases hpow : m.world.data.state.power
    · right; left
      simp [app_led_power_append]
    · right; right
      simp [app_led_power_append, clearBits_power_bit]
  | long_press r1 r2 =>
    simp only [machine_step]
    apply control_step_shape
    left
    exact ⟨rfl, rfl, by rw [app_led_power_append]; rfl⟩
  | loop =>
    left
    obtain ⟨hd, hb, he, _⟩ := loop_pass_facts hueBits m
    simp only [machine_step]
    refine ⟨by rw [hd], ?_, ?_⟩
    · intro hset
      rcases hb with hb | hb
      · rw [hb] at hset
        exact hset
      · rw [hb, clearBits_power_bit] at hset
        exact absurd rfl hset
    · rw [app_led_power_append]
      rcases he with he | he
      · rw [he]; rfl
      · rw [he]; rfl

/-- A property that holds at a machine and is kept by every atomic step holds after any
sequence of steps. -/
theorem machine_run_induction (hueBits : Nat) (P : Machine → Prop)
    (hstep : ∀ m e, P m → P (machine_step hueBits m e)) (events : List Event) :
    ∀ m, P m → P (machine_run hueBits m events) := by
  induction events with
  | nil => intro m hm; exact hm
  | cons e rest ih =>
    intro m hm
    exact ih (machine_step hueBits m e) (hstep m e hm)

/-- After a successful `rainbow_led_init` and any sequence of atomic steps, the LED power
output is the stored power and a set power bit comes with the stored power on. -/
theorem reachable_power_invariant (hueBits : Nat) (env : InitEnv) (w : World)
    (init : rainbow_led_state_t) (callback : rainbow_led_callback_t) (events : List Event)
    (hok : (rainbow_led_init env w (some init) callback).ret = ESP_OK) :
    app_led_power
        (machine_run hueBits (machine_start (rainbow_led_init env w (some init) callback))
          events).trace =
      some (machine_run hueBits (machine_start (rainbow_led_init env w (some init) callback))
          events).world.data.state.power ∧
    ((machine_run hueBits (machine_start (rainbow_led_init env w (some init) callback))
          events).world.event_bits &&& RAINBOW_LED_EVENT_GROUP_BIT_POWER ≠ 0 →
      (machine_run hueBits (machine_start (rainbow_led_init env w (some init) callback))
          events).world.data.state.power = true) := by
  apply machine_run_induction hueBits
    (fun m => app_led_power m.trace = some m.world.data.state.power ∧
      (m.world.event_bits &&& RAINBOW_LED_EVENT_GROUP_BIT_POWER ≠ 0 →
        m.world.data.state.power = true))
  · intro m e ⟨hled, hgate⟩
    rcases machine_step_shape hueBits m e with ⟨hp, hbits, ht⟩ | ⟨hp, ht⟩ | ⟨hp, hbits, ht⟩
    · refine ⟨by rw [ht, hp]; exact hled, ?_⟩
      intro hset
      rw [hp]
      exact hgate (hbits hset)
    · exact ⟨by rw [ht, hp], fun _ => hp⟩
    · refine ⟨by rw [ht, hp], ?_⟩
      intro hset
      exact absurd hbits hset
  · rw [init_of_ok env w init callback hok]
    constructor
    · rfl
    · intro hset
      exact absurd (show (0 : Nat) &&& RAINBOW_LED_EVENT_GROUP_BIT_POWER = 0 by decide) hset

/-- The speed stored is at most 255 and the hue is below 360: kept by every atomic step
when the hue field has 10 bits or more. -/
theorem machine_step_hue (hueBits : Nat) (hbits : 10 ≤ hueBits) (m : Machine) (e : Event)
    (h : m.world.data.state.speed ≤ 255 ∧ m.color.hue < 360) :
    (machine_step hueBits m e).world.data.state.speed ≤ 255 ∧
      (machine_step hueBits m e).color.hue < 360 := by
  obtain ⟨hspeed, hhue⟩ := h
  cases e with
  | set_state state =>
    simp only [machine_step]
    obtain ⟨hd, _, _, hc⟩ := control_step_facts m (rainbow_led_set_state m.world state).world
      (rainbow_led_set_state m.world state).effects
    rw [hd, hc]
    refine ⟨?_, hhue⟩
    cases state with
    | none => exact hspeed
    | some s =>
      by_cases hrej : rejected s
      · rw [set_state_of_rejected m.world s hrej]
        exact hspeed
      · rw [set_state_of_not_rejected m.world s hrej]
        show (if s.change &&& RAINBOW_LED_STATE_CHANGE_SPEED ≠ 0 then s.speed
          else m.world.data.state.speed) ≤ 255
        unfold rejected at hrej
        split_ifs with hf
        · by_contra hc
          exact hrej (Or.inl ⟨hf, by omega⟩)
        · exact hspeed
  | short_press =>
    simp only [machine_step]
    obtain ⟨hd, _, _, hc⟩ := control_step_facts m (_on_short_press m.world).1
      (_on_short_press m.world).2
    rw [hd, hc, short_press_eq m.world]
    exact ⟨hspeed, hhue⟩
  | long_press r1 r2 =>
    simp only [machine_step]
    obtain ⟨hd, _, _, hc⟩ := control_step_facts m (_on_long_press m.world r1 r2).1
      (_on_long_press m.world r1 r2).2
    rw [hd, hc]
    exact ⟨hspeed, hhue⟩
  | loop =>
    obtain ⟨hd, _, _, hc⟩ := loop_pass_facts hueBits m
    simp only [machine_step]
    refine ⟨by rw [hd]; exact hspeed, ?_⟩
    rcases hc with hc | ⟨w, hw, hc⟩
    · rw [hc]; exact hhue
    · rw [hc]
      have hs : w.data.state.speed ≤ 255 := by rw [hw]; exact hspeed
      exact (render_hue_lt hueBits w m.color hbits hhue hs).2.2

/-- With the stored power off, no wake latched and the power bit clear whenever the power
is off, the task does not get past its wait: the pass makes no call and changes
nothing. -/
theorem pass_suspended_when_off (hueBits : Nat) (m : Machine)
    (hinv : m.world.event_bits &&& RAINBOW_LED_EVENT_GROUP_BIT_POWER ≠ 0 →
      m.world.data.state.power = true)
    (hp : m.world.data.state.power = false) (hl : m.latched = none) :
    loop_pass hueBits m =
      { world := m.world, color := m.color, effects := [], blocked := true } := by
  cases hw : m.waiting with
  | true => exact loop_pass_suspended hueBits m hl hw
  | false =>
    have hclear : ¬ (m.world.event_bits &&& RAINBOW_LED_EVENT_GROUP_BIT_POWER =
        RAINBOW_LED_EVENT_GROUP_BIT_POWER) := by
      intro hset
      have hne : m.world.event_bits &&& RAINBOW_LED_EVENT_GROUP_BIT_POWER ≠ 0 := by
        rw [hset]; decide
      rw [hinv hne] at hp
      exact absurd hp (by decide)
    rw [loop_pass_top hueBits m hl hw]
    unfold _task_function_iteration
    rw [if_pos (by simp [hp]), task_wait_eq, if_neg hclear]

/-- A step of the machine keeps "the power bit is set only with the stored power on". -/
theorem machine_step_gate (hueBits : Nat) (m : Machine) (e : Event)
    (hinv : m.world.event_bits &&& RAINBOW_LED_EVENT_GROUP_BIT_POWER ≠ 0 →
      m.world.data.state.power = true) :
    (machine_step hueBits m e).world.event_bits &&& RAINBOW_LED_EVENT_GROUP_BIT_POWER ≠ 0 →
      (machine_step hueBits m e).world.data.state.power = true := by
  intro hset
  rcases machine_step_shape hueBits m e with ⟨hp, hbits, _⟩ | ⟨hp, _⟩ | ⟨_, hbits, _⟩
  · rw [hp]; exact hinv (hbits hset)
  · exact hp
  · exact absurd hbits hset

/-! ## Rendering, power and the gate along the runs of the machine -/

/-- C11, as stated, fails: after an initialisation with the power off the task suspends
itself at its first pass; a request turning the power on hands it the power bit, a request
turning the power off follows before the task runs, and the next pass of the task, with
the stored power off, is not suspended and renders hue 5. -/
theorem render_while_power_off :
    (machine_run 16
        (machine_start
          (rainbow_led_init env_ok { data := _data, event_bits := 0 }
            (some world_off.data.state) 0x400d1234))
        [Event.loop,
          Event.set_state (some { power := true, speed := 0, brightness := 0, change := 1 }),
          Event.set_state (some { power := false, speed := 0, brightness := 0, change := 1 })]
      ).world.data.state.power = false ∧
    loop_pass 16
        (machine_run 16
          (machine_start
            (rainbow_led_init env_ok { data := _data, event_bits := 0 }
              (some world_off.data.state) 0x400d1234))
          [Event.loop,
            Event.set_state (some { power := true, speed := 0, brightness := 0, change := 1 }),
            Event.set_state
              (some { power := false, speed := 0, brightness := 0, change := 1 })]) =
      { world :=
          { data := { state := { power := false, speed := 5, brightness := 20, change := 0 }
                      callback := 0x400d1234
                      event_group := 0x3ffb2000 }
            event_bits := 0 }
        color := { hue := 5, saturation := 100, brightness := 20 }
        effects :=
          [Effect.ledSetColor { hue := 5, saturation := 100, brightness := 20 },
            Effect.taskDelay 50]
        blocked := false } := by
  decide

/-- C11, amended: in every state reached from a successful `rainbow_led_init` by atomic
steps, the next pass of the task renders, or changes the hue, only if the stored power is
on or a wake-up handed over by an earlier power-on signal is still pending; while the
stored power is off and no wake-up is pending the pass stays suspended on the gate, makes
no call and leaves the world and the task-local colour as they are; and with the stored
power off the pass after the next one is suspended in any case, so a pending wake-up gives
one render at most. -/
theorem render_only_when_powered_or_woken (hueBits : Nat) (env : InitEnv) (w : World)
    (init : rainbow_led_state_t) (callback : rainbow_led_callback_t) (events : List Event)
    (m : Machine)
    (hok : (rainbow_led_init env w (some init) callback).ret = ESP_OK)
    (hm : m = machine_run hueBits
      (machine_start (rainbow_led_init env w (some init) callback)) events) :
    ((∃ c, Effect.ledSetColor c ∈ (loop_pass hueBits m).effects) →
      m.world.data.state.power = true ∨ ∃ bits, m.latched = some bits) ∧
    ((loop_pass hueBits m).color.hue ≠ m.color.hue →
      m.world.data.state.power = true ∨ ∃ bits, m.latched = some bits) ∧
    (m.world.data.state.power = false → m.latched = none →
      loop_pass hueBits m =
        { world := m.world, color := m.color, effects := [], blocked := true }) ∧
    (m.world.data.state.power = false →
      loop_pass hueBits (machine_step hueBits m Event.loop) =
        { world := (machine_step hueBits m Event.loop).world
          color := (machine_step hueBits m Event.loop).color
          effects := []
          blocked := true }) := by
  have hinv := (reachable_power_invariant hueBits env w init callback events hok).2
  rw [← hm] at hinv
  have hoff : m.world.data.state.power = false → m.latched = none →
      loop_pass hueBits m =
        { world := m.world, color := m.color, effects := [], blocked := true } :=
    fun hp hl => pass_suspended_when_off hueBits m hinv hp hl
  refine ⟨?_, ?_, hoff, ?_⟩
  · rintro ⟨c, hc⟩
    cases hp : m.world.data.state.power with
    | true => exact Or.inl rfl
    | false =>
      cases hl : m.latched with
      | some bits => exact Or.inr ⟨bits, rfl⟩
      | none =>
        rw [hoff hp hl] at hc
        exact absurd hc (List.not_mem_nil _)
  · intro hne
    cases hp : m.world.data.state.power with
    | true => exact Or.inl rfl
    | false =>
      cases hl : m.latched with
      | some bits => exact Or.inr ⟨bits, rfl⟩
      | none =>
        rw [hoff hp hl] at hne
        exact absurd rfl hne
  · intro hp
    apply pass_suspended_when_off hueBits (machine_step hueBits m Event.loop)
      (machine_step_gate hueBits m Event.loop hinv)
    · show (loop_pass hueBits m).world.data.state.power = false
      rw [(loop_pass_facts hueBits m).1]
      exact hp
    · rfl

/-- C11, amended, at a concrete run: the example application is initialised with the power
on, a short press turns it off, and the next pass of the task is suspended without a
call. -/
theorem render_only_when_powered_or_woken_witness :
    loop_pass 16
        (machine_run 16
          (machine_start
            (rainbow_led_init env_ok { data := _data, event_bits := 0 }
              (some world_on.data.state) 0x400d1234))
          [Event.loop, Event.short_press]) =
      { world :=
          (machine_run 16
            (machine_start
              (rainbow_led_init env_ok { data := _data, event_bits := 0 }
                (some world_on.data.state) 0x400d1234))
            [Event.loop, Event.short_press]).world
        color :=
          (machine_run 16
            (machine_start
              (rainbow_led_init env_ok { data := _data, event_bits := 0 }
                (some world_on.data.state) 0x400d1234))
            [Event.loop, Event.short_press]).color
        effects := []
        blocked := true } :=
  (render_only_when_powered_or_woken 16 env_ok { data := _data, event_bits := 0 }
    world_on.data.state 0x400d1234 [Event.loop, Event.short_press] _ (by decide) rfl).2.2.1
    (by decide) (by decide)

/-- C19: after a successful `rainbow_led_init` and after every later atomic step, the
value last passed to `app_led_set_power` is the stored power, and whenever the power bit
of the gate is set the stored power is on. -/
theorem led_power_mirrors_stored_power (hueBits : Nat) (env : InitEnv) (w : World)
    (init : rainbow_led_state_t) (callback : rainbow_led_callback_t) (events : List Event)
    (m : Machine)
    (hok : (rainbow_led_init env w (some init) callback).ret = ESP_OK)
    (hm : m = machine_run hueBits
      (machine_start (rainbow_led_init env w (some init) callback)) events) :
    app_led_power m.trace = some m.world.data.state.power ∧
    (m.world.event_bits &&& RAINBOW_LED_EVENT_GROUP_BIT_POWER ≠ 0 →
      m.world.data.state.power = true) := by
  rw [hm]
  exact reachable_power_invariant hueBits env w init callback events hok

/-- C19 at a concrete run: initialised with the power on, then an invalid request, a long
press, a short press and a request turning the power on again. -/
theorem led_power_mirrors_stored_power_witness :
    app_led_power
        (machine_run 16
          (machine_start
            (rainbow_led_init env_ok { data := _data, event_bits := 0 }
              (some world_on.data.state) 0x400d1234))
          [Event.set_state (some { power := false, speed := 0, brightness := 0, change := 7 }),
            Event.long_press 3 50, Event.short_press,
            Event.set_state
              (some { power := true, speed := 0, brightness := 0, change := 1 })]).trace =
      some true :=
  (led_power_mirrors_stored_power 16 env_ok { data := _data, event_bits := 0 }
    world_on.data.state 0x400d1234
    [Event.set_state (some { power := false, speed := 0, brightness := 0, change := 7 }),
      Event.long_press 3 50, Event.short_press,
      Event.set_state (some { power := true, speed := 0, brightness := 0, change := 1 })]
    _ (by decide) rfl).1

/-- The handover to a suspended task: when the operation called `xEventGroupSetBits` and
the power bit is in the group, the bits of the group are latched for the task and the
power bit is cleared. -/
theorem control_step_signalled (m : Machine) (w : World) (effects : List Effect)
    (hw : m.waiting = true) (hes : effects.any Effect.isSetBits = true)
    (hb : w.event_bits &&& RAINBOW_LED_EVENT_GROUP_BIT_POWER =
      RAINBOW_LED_EVENT_GROUP_BIT_POWER) :
    control_step m w effects =
      { world :=
          { w with
            event_bits := xEventGroupClearBits w.event_bits RAINBOW_LED_EVENT_GROUP_BIT_POWER }
        color := m.color
        waiting := false
        trace := m.trace ++ effects
        latched := some w.event_bits } := by
  unfold control_step gate_handover xEventGroupWaitBits
  simp [hw, hes, hb]

/-- A task made ready with the power bit among its latched bits: its next pass renders
first and delays after, the hue moved by the stored speed, whatever the stored power. -/
theorem loop_step_of_latched (hueBits : Nat) (m : Machine) (bits : Nat)
    (hl : m.latched = some bits) (hb : bits &&& RAINBOW_LED_EVENT_GROUP_BIT_POWER ≠ 0) :
    (machine_step hueBits m Event.loop).waiting = false ∧
    (machine_step hueBits m Event.loop).latched = none ∧
    (machine_step hueBits m Event.loop).world = m.world ∧
    (machine_step hueBits m Event.loop).trace =
      m.trace ++ [Effect.ledSetColor (machine_step hueBits m Event.loop).color,
        Effect.taskDelay 50] ∧
    (machine_step hueBits m Event.loop).color.hue =
      (if 360 ≤ (m.color.hue + m.world.data.state.speed) % 2 ^ hueBits then
        (m.color.hue + m.world.data.state.speed) % 2 ^ hueBits - 360
      else (m.color.hue + m.world.data.state.speed) % 2 ^ hueBits) := by
  have hstep : machine_step hueBits m Event.loop =
      { world := (loop_pass hueBits m).world, color := (loop_pass hueBits m).color,
        waiting := (loop_pass hueBits m).blocked,
        trace := m.trace ++ (loop_pass hueBits m).effects, latched := none } := rfl
  have hpass : loop_pass hueBits m = _task_function_render hueBits m.world m.color := by
    rw [loop_pass_latched hueBits m bits hl]
    unfold _task_function_woken
    rw [if_neg hb]
  rw [hstep, hpass]
  refine ⟨rfl, rfl, rfl, rfl, ?_⟩
  unfold _task_function_render
  simp only [ge_iff_le]
  split_ifs <;> rfl

/-- C16: from a machine whose stored power is off and whose task is suspended on a clear
gate, turning the power on, by a short press or by a successful `rainbow_led_set_state`
flagging `POWER` with power on, leaves the stored power on and sets the power bit, which
`xEventGroupSetBits` hands over at once to the suspended task (latched for it, consumed
from the group); the very next pass of the task then leaves the wait, moves the hue by the
stored speed and renders, the render being its first call and the frame delay coming
after, and the power bit of the group is clear. -/
theorem wake_not_missed (hueBits : Nat) (m : Machine) (e : Event)
    (hwait : m.waiting = true) (hoff : m.world.data.state.power = false)
    (_hclear : m.world.event_bits &&& RAINBOW_LED_EVENT_GROUP_BIT_POWER = 0)
    (he : e = Event.short_press ∨
      ∃ s, e = Event.set_state (some s) ∧ s.change &&& RAINBOW_LED_STATE_CHANGE_POWER ≠ 0 ∧
        s.power = true ∧ (rainbow_led_set_state m.world (some s)).ret = ESP_OK) :
    (machine_step hueBits m e).world.data.state.power = true ∧
    Effect.setBits RAINBOW_LED_EVENT_GROUP_BIT_POWER ∈ (machine_step hueBits m e).trace ∧
    xEventGroupSetBits m.world.event_bits RAINBOW_LED_EVENT_GROUP_BIT_POWER &&&
      RAINBOW_LED_EVENT_GROUP_BIT_POWER = RAINBOW_LED_EVENT_GROUP_BIT_POWER ∧
    (machine_step hueBits m e).latched =
      some (xEventGroupSetBits m.world.event_bits RAINBOW_LED_EVENT_GROUP_BIT_POWER) ∧
    (machine_step hueBits (machine_step hueBits m e) Event.loop).waiting = false ∧
    (machine_step hueBits (machine_step hueBits m e) Event.loop).latched = none ∧
    (machine_step hueBits (machine_step hueBits m e) Event.loop).world.event_bits &&&
      RAINBOW_LED_EVENT_GROUP_BIT_POWER = 0 ∧
    (machine_step hueBits (machine_step hueBits m e) Event.loop).world.data.state.power
      = true ∧
    (machine_step hueBits (machine_step hueBits m e) Event.loop).trace =
      (machine_step hueBits m e).trace ++
        [Effect.ledSetColor
            (machine_step hueBits (machine_step hueBits m e) Event.loop).color,
          Effect.taskDelay 50] ∧
    (machine_step hueBits (machine_step hueBits m e) Event.loop).color.hue =
      (if 360 ≤ (m.color.hue + (machine_step hueBits m e).world.data.state.speed)
          % 2 ^ hueBits then
        (m.color.hue + (machine_step hueBits m e).world.data.state.speed) % 2 ^ hueBits - 360
      else (m.color.hue + (machine_step hueBits m e).world.data.state.speed)
        % 2 ^ hueBits) := by
  have hset := setBits_power_bit m.world.event_bits
  have hfacts : (machine_step hueBits m e).world.data.state.power = true ∧
      Effect.setBits RAINBOW_LED_EVENT_GROUP_BIT_POWER ∈ (machine_step hueBits m e).trace ∧
      (machine_step hueBits m e).latched =
        some (xEventGroupSetBits m.world.event_bits RAINBOW_LED_EVENT_GROUP_BIT_POWER) ∧
      (machine_step hueBits m e).world.event_bits &&& RAINBOW_LED_EVENT_GROUP_BIT_POWER = 0 ∧
      (machine_step hueBits m e).color = m.color := by
    rcases he with he | ⟨s, he, hflag, hon, hok⟩
    · subst he
      have hop : _on_short_press m.world =
          ({ data := { m.world.data with state := { m.world.data.state with power := true } }
             event_bits :=
               xEventGroupSetBits m.world.event_bits RAINBOW_LED_EVENT_GROUP_BIT_POWER },
            [Effect.ledSetPower true, Effect.setBits RAINBOW_LED_EVENT_GROUP_BIT_POWER,
              Effect.callback m.world.data.callback
                { power := true
                  speed := m.world.data.state.speed
                  brightness := m.world.data.state.brightness
                  change := RAINBOW_LED_STATE_CHANGE_POWER }]) := by
        rw [short_press_eq m.world]
        simp [hoff]
      simp only [machine_step]
      rw [hop, control_step_signalled m _ _ hwait (by rfl) hset]
      refine ⟨rfl, ?_, rfl, clearBits_power_bit _, rfl⟩
      simp
    · subst he
      have hrej : ¬ rejected s := by
        intro h
        rw [set_state_of_rejected m.world s h] at hok
        exact absurd hok (show ESP_ERR_INVALID_ARG ≠ ESP_OK by decide)
      have hop : rainbow_led_set_state m.world (some s) =
          { ret := ESP_OK
            world :=
              { data :=
                  { m.world.data with
                    state :=
                      { power := true
                        speed :=
                          if s.change &&& RAINBOW_LED_STATE_CHANGE_SPEED ≠ 0 then s.speed
                          else m.world.data.state.speed
                        brightness :=
                          if s.change &&& RAINBOW_LED_STATE_CHANGE_BRIGHTNESS ≠ 0 then
                            s.brightness
                          else m.world.data.state.brightness
                        change := m.world.data.state.change } }
                event_bits :=
                  xEventGroupSetBits m.world.event_bits RAINBOW_LED_EVENT_GROUP_BIT_POWER }
            effects :=
              [Effect.ledSetPower true, Effect.setBits RAINBOW_LED_EVENT_GROUP_BIT_POWER] } := by
        rw [set_state_of_not_rejected m.world s hrej]
        simp [hflag, hon]
      simp only [machine_step]
      rw [hop, control_step_signalled m _ _ hwait (by rfl) hset]
      refine ⟨rfl, ?_, rfl, clearBits_power_bit _, rfl⟩
      simp
  obtain ⟨hpow, hmem, hlatch, hbit, hcolor⟩ := hfacts
  have hne : xEventGroupSetBits m.world.event_bits RAINBOW_LED_EVENT_GROUP_BIT_POWER &&&
      RAINBOW_LED_EVENT_GROUP_BIT_POWER ≠ 0 := by
    rw [hset]; decide
  obtain ⟨h1, h2, h3, h4, h5⟩ :=
    loop_step_of_latched hueBits (machine_step hueBits m e) _ hlatch hne
  refine ⟨hpow, hmem, hset, hlatch, h1, h2, ?_, ?_, h4, ?_⟩
  · rw [h3]; exact hbit
  · rw [h3]; exact hpow
  · rw [h5, hcolor]

/-- C16 at a concrete input: the task waits with the power off, a short press comes. -/
theorem wake_not_missed_witness :
    (machine_step 16
        (machine_step 16
          { world := world_off, color := { hue := 358, saturation := 100, brightness := 20 },
            waiting := true, trace := [] }
          Event.short_press)
        Event.loop).trace =
      (machine_step 16
          { world := world_off, color := { hue := 358, saturation := 100, brightness := 20 },
            waiting := true, trace := [] }
          Event.short_press).trace ++
        [Effect.ledSetColor
            (machine_step 16
              (machine_step 16
                { world := world_off,
                  color := { hue := 358, saturation := 100, brightness := 20 },
                  waiting := true, trace := [] }
                Event.short_press)
              Event.loop).color,
          Effect.taskDelay 50] :=
  (wake_not_missed 16
    { world := world_off, color := { hue := 358, saturation := 100, brightness := 20 },
      waiting := true, trace := [] }
    Event.short_press rfl rfl (by decide) (Or.inl rfl)).2.2.2.2.2.2.2.2.1

/-- C20: with a hue field of 16 bits or more, one render from a hue in `[0,360)` with any
8-bit stored speed adds without overflow and leaves the hue `(hue + speed) mod 360`, again
in `[0,360)`; and after a successful `rainbow_led_init` with an 8-bit speed the hue of the
task, which starts at 0, is in `[0,360)` after any sequence of atomic steps. -/
theorem hue_stays_in_range (hueBits : Nat) (hbits : 16 ≤ hueBits) :
    (∀ (w : World) (color : app_led_color_hsv_t),
      color.hue < 360 → w.data.state.speed ≤ 255 →
        color.hue + w.data.state.speed < 2 ^ hueBits ∧
        (_task_function_render hueBits w color).color.hue =
          (color.hue + w.data.state.speed) % 360 ∧
        (_task_function_render hueBits w color).color.hue < 360) ∧
    (∀ (env : InitEnv) (w : World) (init : rainbow_led_state_t)
        (callback : rainbow_led_callback_t) (events : List Event),
      (rainbow_led_init env w (some init) callback).ret = ESP_OK → init.speed ≤ 255 →
        (machine_start (rainbow_led_init env w (some init) callback)).color.hue = 0 ∧
        (machine_run hueBits (machine_start (rainbow_led_init env w (some init) callback))
          events).color.hue < 360) := by
  have h10 : 10 ≤ hueBits := by omega
  constructor
  · intro w color hhue hspeed
    exact render_hue_lt hueBits w color h10 hhue hspeed
  · intro env w init callback events hok hspeed
    refine ⟨rfl, ?_⟩
    have hrun := machine_run_induction hueBits
      (fun m => m.world.data.state.speed ≤ 255 ∧ m.color.hue < 360)
      (fun m e h => machine_step_hue hueBits h10 m e h) events
      (machine_start (rainbow_led_init env w (some init) callback))
      (by
        rw [init_of_ok env w init callback hok]
        exact ⟨hspeed, show (0 : Nat) < 360 by decide⟩)
    exact hrun.2

/-- C20 at a concrete input: a 16-bit hue of 359 and the stored speed 255 give 254. -/
theorem hue_stays_in_range_witness :
    359 + 255 < 2 ^ 16 ∧
    (_task_function_render 16
        { world_on with
          data := { world_on.data with state := { world_on.data.state with speed := 255 } } }
        { hue := 359, saturation := 100, brightness := 20 }).color.hue = (359 + 255) % 360 ∧
    (_task_function_render 16
        { world_on with
          data := { world_on.data with state := { world_on.data.state with speed := 255 } } }
        { hue := 359, saturation := 100, brightness := 20 }).color.hue < 360 :=
  (hue_stays_in_range 16 (by decide)).1
    { world_on with
      data := { world_on.data with state := { world_on.data.state with speed := 255 } } }
    { hue := 359, saturation := 100, brightness := 20 } (by decide) (by decide)

end RainbowLed
